import Mathlib

/-!
# Scaffolding: authentication and session core

A shallow embedding of `template/service/auth.go`, of the store layer
`template/db/{session,otp,user}.go` and of the handlers and middleware of
`template/handler/{auth,helper,middleware}.go`, followed by theorems about register /
login, the session lifecycle, one-time codes, the admin gate chain and the rate limiter.

Conventions of the embedding

* `time.Time` and `time.Duration` are integers counting nanoseconds.
* A Go function returning `(T, error)` returns `Except Err T`; a function returning
  only `error` returns `Option Err` (`none` is Go's `nil`).
* The store interfaces of package `db` are records of state-passing functions over an
  arbitrary store state `σ`; every call a service function makes on a store is
  appended to a call log kept next to the store state (`World`).
* Every `time.Now()` of a service function is an explicit clock argument, in call order;
  a handler takes the readings of its call sites from `Env.clock`.
* An `http.Handler` transforms an `Exchange`: the store world, the calls made on the
  response writer, the log output, the mails sent and the rate limiter's map.
-/

namespace Scaffolding

/-! ## Errors -/

/-- Go error values: the sentinels of `service/auth.go`, `sql.ErrNoRows`, the two
failures of `strconv.Atoi`, any other error value, and `fmt.Errorf("...: %w", err)`. -/
inductive Err where
  | ErrSessionExpired
  | ErrInvalidCredentials
  | ErrInvalidSession
  | ErrInvalidEmailFormat
  | ErrPasswordTooWeak
  | ErrEmailAlreadyInUse
  | ErrPasswordHashFailed
  | ErrOTPGenerationFailed
  | ErrInvalidOTPCode
  | ErrOTPExpired
  | ErrEmailSendFailed
  | sqlErrNoRows
  | atoiSyntax (input : String)
  | atoiRange (input : String)
  | other (msg : String)
  | wrapped (msg : String) (inner : Err)
  deriving DecidableEq, Repr

deriving instance DecidableEq for Except

/-- Go `errors.Is(err, target)`: follows the `%w` chain. -/
def Err.is : Err → Err → Bool
  | Err.wrapped m e, t => decide (Err.wrapped m e = t) || Err.is e t
  | e, t => decide (e = t)

/-! ## Data model (package db) -/

/-- Nanoseconds since the epoch (`time.Time`). -/
abbrev Time := Int

/-- Nanoseconds (`time.Duration`). -/
abbrev Duration := Int

/-- Go `time.Second`. -/
def second : Duration := 1000000000

/-- Go `time.Minute`. -/
def minute : Duration := 60 * second

/-- Go `time.Hour`. -/
def hour : Duration := 60 * minute

/-- Record `db.User`. -/
structure User where
  ID : String
  Email : String
  PasswordHash : String
  GoogleID : String
  Oauth : Bool
  Verify : Bool
  Role : String
  CreatedAt : Time
  UpdatedAt : Time
  deriving DecidableEq, Repr

/-- Record `db.Session`; `ExpiresAt` is a nullable pointer in the source. -/
structure Session where
  UserID : String
  Token : String
  CreatedAt : Time
  ExpiresAt : Option Time
  IPAddress : Option String
  UserAgent : String
  deriving DecidableEq, Repr

/-- Record `db.Otp`. -/
structure Otp where
  Code : Int
  UserId : String
  CreatedAt : Time
  Used : Bool
  deriving DecidableEq, Repr

/-- Interface `db.SessionStore` over a store state `σ`. -/
structure SessionStore (σ : Type) where
  CreateSession : Session → σ → Except Err String × σ
  GetByCookieHash : String → σ → Except Err Session × σ
  DeleteByCookieHash : String → σ → Option Err × σ
  UpdateExpiry : String → Time → σ → Option Err × σ
  DeleteByUserID : String → σ → Option Err × σ

/-- Interface `db.UserStore` over a store state `σ` (the methods the service and the
handlers call). -/
structure UserStore (σ : Type) where
  CreateUser : User → σ → Except Err User × σ
  GetUserByID : String → σ → Except Err User × σ
  GetUserByEmail : String → σ → Except Err User × σ
  UpdateVerify : String → Bool → σ → Option Err × σ

/-- Interface `db.OtpStore` over a store state `σ`; `DeleteExpiredOtps` reads the clock. -/
structure OtpStore (σ : Type) where
  CreateOtp : Otp → σ → Option Err × σ
  GetOtp : String → Int → σ → Except Err Otp × σ
  MarkOtpAsUsed : String → Int → σ → Option Err × σ
  DeleteExpiredOtps : Time → σ → Option Err × σ

/-- Interface `db.AuthStore` (and the `db.Store` the service signatures name). -/
structure AuthStore (σ : Type) where
  sessions : SessionStore σ
  users : UserStore σ
  otps : OtpStore σ

/-- One call on a store interface, with its arguments. -/
inductive Call where
  | CreateSession (s : Session)
  | GetByCookieHash (cookieHash : String)
  | DeleteByCookieHash (cookieHash : String)
  | UpdateExpiry (cookieHash : String) (expiresAt : Time)
  | DeleteByUserID (userID : String)
  | CreateUser (u : User)
  | GetUserByID (id : String)
  | GetUserByEmail (email : String)
  | UpdateVerify (id : String) (verify : Bool)
  | CreateOtp (otp : Otp)
  | GetOtp (userId : String) (code : Int)
  | MarkOtpAsUsed (userId : String) (code : Int)
  | DeleteExpiredOtps
  deriving DecidableEq, Repr

/-- Store state together with the log of the store calls made so far. -/
structure World (σ : Type) where
  st : σ
  log : List Call
  deriving DecidableEq

/-- Perform one store call: run it on the state and append it to the log. -/
def World.call {σ α : Type} (w : World σ) (c : Call) (op : σ → α × σ) : α × World σ :=
  ((op w.st).1, { st := (op w.st).2, log := w.log ++ [c] })

/-- Functions of other packages the service calls: `mail.ParseAddress` (did it succeed),
`bcrypt.CompareHashAndPassword` and `utils.HashPassword`. -/
structure Lib where
  mailParseAddress : String → Bool
  bcryptCompareHashAndPassword : String → String → Option Err
  HashPassword : String → Except Err String

/-! ## service/auth.go: credentials -/

/-- Constant `sessionDuration = 24 * time.Hour`. -/
def sessionDuration : Duration := 24 * hour

/-- Go `CheckPassword(hashedPassword, password)`. -/
def CheckPassword (lib : Lib) (hashedPassword password : String) : Option Err :=
  lib.bcryptCompareHashAndPassword hashedPassword password

/-- Go `ValidateEmail`: `mail.ParseAddress` returned no error. -/
def ValidateEmail (lib : Lib) (email : String) : Bool :=
  lib.mailParseAddress email

/-- Go `IsValidPasswordLength`: `len([]byte(password))` is in `[8, 72]`. -/
def IsValidPasswordLength (password : String) : Bool :=
  decide (password.utf8ByteSize ≥ 8) && decide (password.utf8ByteSize ≤ 72)

/-- Go `ValidateUserInput`. -/
def ValidateUserInput (lib : Lib) (user : User) : Option Err :=
  if !ValidateEmail lib user.Email then some Err.ErrInvalidEmailFormat
  else if !IsValidPasswordLength user.PasswordHash then some Err.ErrPasswordTooWeak
  else none

/-- Go `RegisterUser(ctx, store, user)`. The result of `GetUserByEmail` is dropped; only
its error is inspected. -/
def RegisterUser {σ : Type} (lib : Lib) (store : AuthStore σ) (user : User) (w : World σ) :
    Except Err User × World σ :=
  match ValidateUserInput lib user with
  | some err => (Except.error err, w)
  | none =>
    let r := w.call (Call.GetUserByEmail user.Email) (store.users.GetUserByEmail user.Email)
    let hashAndCreate : Except Err User × World σ :=
      match lib.HashPassword user.PasswordHash with
      | Except.error _ => (Except.error Err.ErrPasswordHashFailed, r.2)
      | Except.ok h =>
        r.2.call (Call.CreateUser { user with PasswordHash := h })
          (store.users.CreateUser { user with PasswordHash := h })
    match r.1 with
    | Except.error err =>
      if !Err.is err Err.sqlErrNoRows then (Except.error err, r.2) else hashAndCreate
    | Except.ok _ => hashAndCreate

/-- Go `LoginUser(ctx, s, u)`. -/
def LoginUser {σ : Type} (lib : Lib) (s : AuthStore σ) (u : User) (w : World σ) :
    Except Err User × World σ :=
  match ValidateUserInput lib u with
  | some err => (Except.error err, w)
  | none =>
    match w.call (Call.GetUserByEmail u.Email) (s.users.GetUserByEmail u.Email) with
    | (Except.error err, w1) => (Except.error err, w1)
    | (Except.ok existing, w1) =>
      match CheckPassword lib existing.PasswordHash u.PasswordHash with
      | some _ => (Except.error Err.ErrInvalidCredentials, w1)
      | none => (Except.ok existing, w1)

/-! ## service/auth.go: sessions -/

/-- The parts of `*http.Request` the service and the handlers read: the result of
`GetIPAddressBytes(r)`, `r.UserAgent()`, `r.RemoteAddr`, `r.Method`, `r.URL.Path`, whether
`r.TLS` is set, the form values, the value of the cookie named `session` (`none` when
`r.Cookie` reports no such cookie) and the user stored under `userKey` in the request
context. -/
structure Request where
  ClientIP : Option String
  UserAgent : String
  RemoteAddr : String := ""
  Method : String := ""
  Path : String := ""
  TLS : Bool := false
  Form : List (String × String) := []
  SessionCookie : Option String := none
  ContextUser : Option User := none
  deriving DecidableEq, Repr

/-- The zero `time.Time` (January 1, year 1 UTC) as nanoseconds from the Unix epoch. -/
def zeroTime : Time := -62135596800 * second

/-- Go `CreateSession(ctx, ss, userID, r)`. `token` is the outcome of
`GenerateSessionToken()` (32 bytes of `rand.Read`, base64url), `now` is `time.Now()`. -/
def CreateSession {σ : Type} (ss : SessionStore σ) (token : Except Err String) (now : Time)
    (userID : String) (r : Request) (w : World σ) : Except Err String × World σ :=
  match token with
  | Except.error err => (Except.error err, w)
  | Except.ok cookieHash =>
    let session : Session :=
      { UserID := userID, Token := cookieHash, CreatedAt := zeroTime,
        ExpiresAt := some (now + sessionDuration), IPAddress := r.ClientIP,
        UserAgent := r.UserAgent }
    w.call (Call.CreateSession session) (ss.CreateSession session)

/-- The test `session.ExpiresAt != nil && time.Now().After(*session.ExpiresAt)`. -/
def sessionExpired (session : Session) (now : Time) : Bool :=
  match session.ExpiresAt with
  | none => false
  | some expiresAt => decide (now > expiresAt)

/-- Go `ValidateSession(ctx, cookieHash, ss)`; `now` is its `time.Now()`. The error of
`DeleteByCookieHash` is discarded (`_ =`). -/
def ValidateSession {σ : Type} (ss : SessionStore σ) (now : Time) (cookieHash : String)
    (w : World σ) : Except Err Session × World σ :=
  match w.call (Call.GetByCookieHash cookieHash) (ss.GetByCookieHash cookieHash) with
  | (Except.error _, w1) => (Except.error Err.ErrInvalidSession, w1)
  | (Except.ok session, w1) =>
    if sessionExpired session now then
      (Except.error Err.ErrSessionExpired,
        (w1.call (Call.DeleteByCookieHash cookieHash) (ss.DeleteByCookieHash cookieHash)).2)
    else (Except.ok session, w1)

/-- Go `RefreshSession(ctx, cookieHash, ss)`; `now1` is the clock read inside
`ValidateSession`, `now2` the one read for the new expiry. -/
def RefreshSession {σ : Type} (ss : SessionStore σ) (now1 now2 : Time) (cookieHash : String)
    (w : World σ) : Option Err × World σ :=
  match ValidateSession ss now1 cookieHash w with
  | (Except.error err, w1) => (some err, w1)
  | (Except.ok _, w1) =>
    w1.call (Call.UpdateExpiry cookieHash (now2 + sessionDuration))
      (ss.UpdateExpiry cookieHash (now2 + sessionDuration))

/-- Go `RevokeSession`. -/
def RevokeSession {σ : Type} (ss : SessionStore σ) (cookieHash : String) (w : World σ) :
    Option Err × World σ :=
  w.call (Call.DeleteByCookieHash cookieHash) (ss.DeleteByCookieHash cookieHash)

/-- Go `RevokeAllUserSessions`. -/
def RevokeAllUserSessions {σ : Type} (ss : SessionStore σ) (userID : String) (w : World σ) :
    Option Err × World σ :=
  w.call (Call.DeleteByUserID userID) (ss.DeleteByUserID userID)

/-! ## service/auth.go: one-time codes -/

/-- Value of a run of decimal digits, most significant first. -/
def digitsValue (cs : List Char) : Nat :=
  cs.foldl (fun acc c => 10 * acc + (c.toNat - 48)) 0

/-- The optional leading sign of a decimal literal: is it negative, and what follows. -/
def splitSign : List Char → Bool × List Char
  | '-' :: t => (true, t)
  | '+' :: t => (false, t)
  | cs => (false, cs)

/-- Go `strconv.Atoi` for a 64-bit `int`: an optional sign, then one or more decimal
digits; a syntax error otherwise, a range error outside `[-2^63, 2^63 - 1]`. -/
def Atoi (s : String) : Except Err Int :=
  let body := splitSign s.toList
  if body.2.isEmpty || !body.2.all Char.isDigit then Except.error (Err.atoiSyntax s)
  else
    let v : Int := if body.1 then -(digitsValue body.2 : Int) else (digitsValue body.2 : Int)
    if v < -(2 ^ 63) ∨ v > 2 ^ 63 - 1 then Except.error (Err.atoiRange s) else Except.ok v

/-- The loop `for i := 1; i < length; i++` of `generateSecureOTP` with `n` iterations
left: draw `i` is `rand.Int(rand.Reader, 10)`; `none` is the early return of the loop. -/
def otpLoop (rest : Nat → Except Err (Fin 10)) : Nat → Nat → String → Option String
  | 0, _, otpChars => some otpChars
  | n + 1, i, otpChars =>
    match rest i with
    | Except.error _ => none
    | Except.ok digit => otpLoop rest n (i + 1) (otpChars ++ toString digit.val)

/-- Go `generateSecureOTP(length)`, returning the pair `(int, error)`. `first` is the
outcome of `rand.Int(rand.Reader, 9)` and `rest i` that of the draw of loop iteration `i`
(`rand.Int(rand.Reader, 10)`); a successful draw is below its limit. Inside the loop the
source tests `err2` but returns `err`, which is `nil` there. -/
def generateSecureOTP (first : Except Err (Fin 9)) (rest : Nat → Except Err (Fin 10))
    (length : Int) : Int × Option Err :=
  if length ≤ 0 ∨ length > 9 then
    (0, some (Err.other "length should be between 0 to 9 include"))
  else
    match first with
    | Except.error e => (0, some e)
    | Except.ok firstDigit =>
      let err : Option Err := none
      match otpLoop rest (length - 1).toNat 1 (toString (firstDigit.val + 1)) with
      | none => (0, err)
      | some otpStr =>
        match Atoi otpStr with
        | Except.error e => (0, some (Err.wrapped "échec de la conversion en uint32" e))
        | Except.ok toint => (toint, none)

/-- Go `ValidateOTP(ctx, userId, code, store)`; `now` is the clock `time.Since` reads. -/
def ValidateOTP {σ : Type} (store : OtpStore σ) (now : Time) (userId : String) (code : String)
    (w : World σ) : Option Err × World σ :=
  match Atoi code with
  | Except.error err => (some err, w)
  | Except.ok intcode =>
    match w.call (Call.GetOtp userId intcode) (store.GetOtp userId intcode) with
    | (Except.error _, w1) => (some Err.ErrInvalidOTPCode, w1)
    | (Except.ok otp, w1) =>
      if now - otp.CreatedAt > 5 * minute then (some Err.ErrOTPExpired, w1)
      else if otp.Used then (some Err.ErrInvalidOTPCode, w1)
      else
        match w1.call (Call.MarkOtpAsUsed userId intcode) (store.MarkOtpAsUsed userId intcode) with
        | (some err, w2) => (some (Err.wrapped "failed to mark OTP as used" err), w2)
        | (none, w2) => (none, w2)

/-! ## db: PostgresStore over an in-memory database -/

/-- Contents of the database behind `PostgresStore`: the three tables in insertion order,
the server clock read by `NOW()` and the counter behind generated user ids. -/
structure DB where
  users : List User
  sessions : List Session
  otps : List Otp
  now : Time
  nextID : Nat
  deriving DecidableEq, Repr

/-- Which statements the database fails to execute (connection or driver error), by call;
`fun _ => none` is a database that executes every statement. -/
abbrev Fault := Call → Option Err

/-- Constant `expiryTime = 5 * time.Minute` of `db/otp.go`. -/
def expiryTime : Duration := 5 * minute

/-- Go `(*PostgresStore).CreateSession`: `INSERT INTO sessions ... NOW() ... RETURNING token`.
The source dereferences `s.ExpiresAt`; a nil pointer is reported here as an error. -/
def PostgresStore.CreateSession (fault : Fault) (s : Session) (db : DB) : Except Err String × DB :=
  match fault (Call.CreateSession s) with
  | some e => (Except.error e, db)
  | none =>
    match s.ExpiresAt with
    | none => (Except.error (Err.other "nil pointer dereference"), db)
    | some _ =>
      (Except.ok s.Token, { db with sessions := db.sessions ++ [{ s with CreatedAt := db.now }] })

/-- Go `(*PostgresStore).GetByCookieHash`: `SELECT ... FROM sessions WHERE token = $1`,
first row; `sql.ErrNoRows` when there is none. -/
def PostgresStore.GetByCookieHash (fault : Fault) (cookieHash : String) (db : DB) :
    Except Err Session × DB :=
  match fault (Call.GetByCookieHash cookieHash) with
  | some e => (Except.error e, db)
  | none =>
    match db.sessions.find? (fun s => decide (s.Token = cookieHash)) with
    | none => (Except.error Err.sqlErrNoRows, db)
    | some s => (Except.ok s, db)

/-- Go `(*PostgresStore).DeleteByCookieHash`: `DELETE FROM sessions WHERE token = $1`. -/
def PostgresStore.DeleteByCookieHash (fault : Fault) (cookieHash : String) (db : DB) :
    Option Err × DB :=
  match fault (Call.DeleteByCookieHash cookieHash) with
  | some e => (some e, db)
  | none => (none, { db with sessions := db.sessions.filter (fun s => !decide (s.Token = cookieHash)) })

/-- Go `(*PostgresStore).UpdateExpiry`: `UPDATE sessions SET expires_at = $1 WHERE token = $2`. -/
def PostgresStore.UpdateExpiry (fault : Fault) (cookieHash : String) (expiresAt : Time) (db : DB) :
    Option Err × DB :=
  match fault (Call.UpdateExpiry cookieHash expiresAt) with
  | some e => (some e, db)
  | none =>
    (none, { db with sessions := db.sessions.map (fun s =>
      if s.Token = cookieHash then { s with ExpiresAt := some expiresAt } else s) })

/-- Go `(*PostgresStore).DeleteByUserID`: `DELETE FROM sessions WHERE user_id = $1`. -/
def PostgresStore.DeleteByUserID (fault : Fault) (userID : String) (db : DB) : Option Err × DB :=
  match fault (Call.DeleteByUserID userID) with
  | some e => (some e, db)
  | none => (none, { db with sessions := db.sessions.filter (fun s => !decide (s.UserID = userID)) })

/-- Modelled from the spec: the row `INSERT INTO users (email, password_hash, created_at,
updated_at)` produces; the column defaults come from `migration/*.sql`, which is not among
the sources (role `"user"`, not verified, not federated, no federated id). -/
def insertedUserRow (id : String) (now : Time) (email passwordHash : String) : User :=
  { ID := id, Email := email, PasswordHash := passwordHash, GoogleID := "", Oauth := false,
    Verify := false, Role := "user", CreatedAt := now, UpdatedAt := now }

/-- Go `(*PostgresStore).CreateUser`: the insert, refused when the email is already present
(`CreateSeed` relies on the same uniqueness with `ON CONFLICT (email)`); the returned copy
has `GoogleID` and `PasswordHash` cleared. -/
def PostgresStore.CreateUser (fault : Fault) (u : User) (db : DB) : Except Err User × DB :=
  match fault (Call.CreateUser u) with
  | some e => (Except.error e, db)
  | none =>
    if db.users.any (fun x => decide (x.Email = u.Email)) then
      (Except.error (Err.other "pq: duplicate key value violates unique constraint"), db)
    else
      let row := insertedUserRow (toString db.nextID) db.now u.Email u.PasswordHash
      (Except.ok { row with GoogleID := "", PasswordHash := "" },
        { db with users := db.users ++ [row], nextID := db.nextID + 1 })

/-- Go `(*PostgresStore).GetUserByID`: `SELECT ... WHERE id = $1`, `PasswordHash` cleared. -/
def PostgresStore.GetUserByID (fault : Fault) (id : String) (db : DB) : Except Err User × DB :=
  match fault (Call.GetUserByID id) with
  | some e => (Except.error e, db)
  | none =>
    match db.users.find? (fun x => decide (x.ID = id)) with
    | none => (Except.error Err.sqlErrNoRows, db)
    | some user => (Except.ok { user with PasswordHash := "" }, db)

/-- Go `(*PostgresStore).GetUserByEmail`: `SELECT ... WHERE email = $1`; the hash is kept. -/
def PostgresStore.GetUserByEmail (fault : Fault) (email : String) (db : DB) :
    Except Err User × DB :=
  match fault (Call.GetUserByEmail email) with
  | some e => (Except.error e, db)
  | none =>
    match db.users.find? (fun x => decide (x.Email = email)) with
    | none => (Except.error Err.sqlErrNoRows, db)
    | some user => (Except.ok user, db)

/-- Go `(*PostgresStore).UpdateVerify`: `UPDATE users SET verify = $1 WHERE id = $2`. -/
def PostgresStore.UpdateVerify (fault : Fault) (id : String) (verify : Bool) (db : DB) :
    Option Err × DB :=
  match fault (Call.UpdateVerify id verify) with
  | some e => (some e, db)
  | none =>
    (none, { db with users := db.users.map (fun x =>
      if x.ID = id then { x with Verify := verify } else x) })

/-- Go `(*PostgresStore).CreateOtp`: the insert always stores `used = false`. -/
def PostgresStore.CreateOtp (fault : Fault) (otp : Otp) (db : DB) : Option Err × DB :=
  match fault (Call.CreateOtp otp) with
  | some e => (some e, db)
  | none => (none, { db with otps := db.otps ++ [{ otp with Used := false }] })

/-- Go `(*PostgresStore).GetOtp`: `SELECT ... WHERE user_id = $1 AND code = $2`, first row. -/
def PostgresStore.GetOtp (fault : Fault) (userId : String) (code : Int) (db : DB) :
    Except Err Otp × DB :=
  match fault (Call.GetOtp userId code) with
  | some e => (Except.error e, db)
  | none =>
    match db.otps.find? (fun o => decide (o.UserId = userId) && decide (o.Code = code)) with
    | none => (Except.error Err.sqlErrNoRows, db)
    | some otp => (Except.ok otp, db)

/-- Go `(*PostgresStore).MarkOtpAsUsed`:
`UPDATE otps SET used = true WHERE user_id = $1 AND code = $2`. -/
def PostgresStore.MarkOtpAsUsed (fault : Fault) (userId : String) (code : Int) (db : DB) :
    Option Err × DB :=
  match fault (Call.MarkOtpAsUsed userId code) with
  | some e => (some e, db)
  | none =>
    (none, { db with otps := db.otps.map (fun o =>
      if o.UserId = userId ∧ o.Code = code then { o with Used := true } else o) })

/-- Go `(*PostgresStore).DeleteExpiredOtps`: `DELETE FROM otps WHERE created_at < $1` with
`$1 = time.Now().Add(-expiryTime)`. -/
def PostgresStore.DeleteExpiredOtps (fault : Fault) (now : Time) (db : DB) : Option Err × DB :=
  match fault Call.DeleteExpiredOtps with
  | some e => (some e, db)
  | none => (none, { db with otps := db.otps.filter (fun o => !decide (o.CreatedAt < now - expiryTime)) })

/-- Go `NewPostgresStore`: the store as a `db.AuthStore`. -/
def NewPostgresStore (fault : Fault) : AuthStore DB :=
  { sessions :=
      { CreateSession := PostgresStore.CreateSession fault
        GetByCookieHash := PostgresStore.GetByCookieHash fault
        DeleteByCookieHash := PostgresStore.DeleteByCookieHash fault
        UpdateExpiry := PostgresStore.UpdateExpiry fault
        DeleteByUserID := PostgresStore.DeleteByUserID fault }
    users :=
      { CreateUser := PostgresStore.CreateUser fault
        GetUserByID := PostgresStore.GetUserByID fault
        GetUserByEmail := PostgresStore.GetUserByEmail fault
        UpdateVerify := PostgresStore.UpdateVerify fault }
    otps :=
      { CreateOtp := PostgresStore.CreateOtp fault
        GetOtp := PostgresStore.GetOtp fault
        MarkOtpAsUsed := PostgresStore.MarkOtpAsUsed fault
        DeleteExpiredOtps := PostgresStore.DeleteExpiredOtps fault } }

/-- A database that executes every statement. -/
def noFault : Fault := fun _ => none

/-! ## service/auth.go: issuing a one-time code -/

/-- The `resend.SendEmailRequest` that `CreateOTP` builds. -/
structure SendEmailRequest where
  From : String
  To : List String
  Subject : String
  Text : String
  deriving DecidableEq, Repr

/-- Go `fmt.Sprintf("your code is", code)`: the format has no verb, so the argument is
reported as extra. -/
def otpMailText (code : Int) : String :=
  "your code is%!(EXTRA int=" ++ toString code ++ ")"

/-- Go `CreateOTP(ctx, store, id, api)`. `first` and `rest` are the draws of the random
source, `now` the `time.Now()` of the record, `send` the outcome of
`resend.NewClient(api).Emails.Send`; the second component lists the emails handed to it. -/
def CreateOTP {σ : Type} (store : OtpStore σ) (first : Except Err (Fin 9))
    (rest : Nat → Except Err (Fin 10)) (send : String → SendEmailRequest → Option Err)
    (now : Time) (id api : String) (w : World σ) :
    (Option Err × World σ) × List SendEmailRequest :=
  match generateSecureOTP first rest 6 with
  | (_, some _) => ((some Err.ErrOTPGenerationFailed, w), [])
  | (code, none) =>
    let otp : Otp := { Code := code, UserId := id, CreatedAt := now, Used := false }
    match w.call (Call.CreateOtp otp) (store.CreateOtp otp) with
    | (some err, w1) => ((some err, w1), [])
    | (none, w1) =>
      let params : SendEmailRequest :=
        { From := "", To := [""], Subject := "", Text := otpMailText code }
      match send api params with
      | some _ => ((some Err.ErrEmailSendFailed, w1), [params])
      | none => ((none, w1), [params])

/-! ## handler: requests, responses and the middleware chain -/

/-- An `http.Cookie` as the handlers fill it. -/
structure Cookie where
  Name : String
  Value : String
  Path : String
  HttpOnly : Bool
  Secure : Bool
  SameSite : String
  MaxAge : Int
  deriving DecidableEq, Repr

/-- One call on the `http.ResponseWriter` (directly or through `http.SetCookie`,
`http.Redirect`, `http.Error` and the template renderers), in call order. -/
inductive WriterOp where
  | WriteHeader (code : Nat)
  | SetHeader (key value : String)
  | SetCookie (c : Cookie)
  | Redirect (url : String) (code : Nat)
  | HttpError (msg : String) (code : Nat)
  | Write (body : String)
  | Render (files : List String)
  deriving DecidableEq, Repr

/-- One record handed to the `slog.Logger` (or printed with `fmt.Printf`): level, message,
the error attribute and the other attributes. -/
structure LogRecord where
  level : String
  msg : String
  err : Option Err
  attrs : List (String × String) := []
  deriving DecidableEq, Repr

/-- The wall clock while one request is served: the reading each `time.Now()` call site
returns (`ValidateSession`, `RefreshSession`, `CreateSession`, `CreateOTP`, the
`time.Since` of `ValidateOTP`, the limiter's `Allow`, and the start and end of
`loggingMiddleware`). -/
structure Clock where
  validate : Time
  refresh : Time
  session : Time
  otp : Time
  since : Time
  allow : Time
  logStart : Time
  logEnd : Time
  deriving DecidableEq, Repr

/-- Modelled from the spec: the per-key token bucket (`rate.Limiter` of
`golang.org/x/time/rate`, which is not among the sources). A bucket accrues tokens at a
fixed rate up to the cap `burst`; `credit` counts accrued nanoseconds, one token being
worth `interval` of them, and `last` is the time of the last update. -/
structure Limiter where
  interval : Duration
  burst : Int
  credit : Int
  last : Time
  deriving DecidableEq, Repr

/-- Modelled from the spec: `rate.NewLimiter(rate.Every(interval), burst)`, a full bucket
("each key lazily gets a bucket with a configured steady rate and burst capacity"). -/
def NewLimiter (interval : Duration) (burst : Int) (now : Time) : Limiter :=
  { interval := interval, burst := burst, credit := burst * interval, last := now }

/-- Modelled from the spec: `Allow` at time `now` ("consumes one token if available"):
the credit accrued since `last` is added, capped at `burst` tokens, and one token is
taken when a whole one is there. -/
def Limiter.Allow (l : Limiter) (now : Time) : Bool × Limiter :=
  let elapsed := if now < l.last then 0 else now - l.last
  let credit := min (l.burst * l.interval) (l.credit + elapsed)
  if credit ≥ l.interval then (true, { l with credit := credit - l.interval, last := now })
  else (false, { l with credit := credit, last := now })

/-- Everything a handler can change while it serves one request: the store and its call
log, the calls made on the response writer, the log output, the emails handed to the
mail client, the `visitors` map of the rate limiter, and whether the goroutine panicked
(after which nothing more is done). -/
structure Exchange (σ : Type) where
  world : World σ
  w : List WriterOp
  logs : List LogRecord
  mails : List SendEmailRequest
  visitors : List (String × Limiter)
  panicked : Bool
  deriving DecidableEq

/-- An `http.Handler`: `ServeHTTP(w, r)` as a transformation of the exchange. -/
abbrev Handler (σ : Type) := Request → Exchange σ → Exchange σ

/-- Go `type middleware func(http.Handler) http.Handler`. -/
abbrev middleware (σ : Type) := Handler σ → Handler σ

/-- Go `Use(handler, mw...)`: the loop runs from the last middleware to the first. -/
def Use {σ : Type} (handler : Handler σ) (mw : List (middleware σ)) : Handler σ :=
  mw.reverse.foldl (fun handler m => m handler) handler

/-- Append one call on the response writer. -/
def Exchange.write {σ : Type} (ex : Exchange σ) (op : WriterOp) : Exchange σ :=
  { ex with w := ex.w ++ [op] }

/-- Append one log record. -/
def Exchange.log {σ : Type} (ex : Exchange σ) (level msg : String) (err : Option Err) :
    Exchange σ :=
  { ex with logs := ex.logs ++ [{ level := level, msg := msg, err := err }] }

/-- A nil pointer dereference: the goroutine panics. -/
def Exchange.panic {σ : Type} (ex : Exchange σ) : Exchange σ :=
  { ex with panicked := true }

/-- Go `unprocessable(w)`. -/
def unprocessable {σ : Type} (ex : Exchange σ) : Exchange σ := ex.write (WriterOp.WriteHeader 422)

/-- Go `unauthorized(w)`. -/
def unauthorized {σ : Type} (ex : Exchange σ) : Exchange σ := ex.write (WriterOp.WriteHeader 401)

/-- Go `badRequest(w)`. -/
def badRequest {σ : Type} (ex : Exchange σ) : Exchange σ := ex.write (WriterOp.WriteHeader 400)

/-- Go `internal(w)`. -/
def internal {σ : Type} (ex : Exchange σ) : Exchange σ := ex.write (WriterOp.WriteHeader 500)

/-- Go `conflict(w)`. -/
def conflict {σ : Type} (ex : Exchange σ) : Exchange σ := ex.write (WriterOp.WriteHeader 409)

/-- Go `r.FormValue(key)`: the first value of the key, `""` when absent. -/
def Request.FormValue (r : Request) (key : String) : String :=
  match r.Form.find? (fun kv => decide (kv.1 = key)) with
  | some kv => kv.2
  | none => ""

/-- Go `contextUser(r)`. -/
def contextUser (r : Request) : Option User := r.ContextUser

/-- What a handler takes from its surroundings besides the store while it serves one
request: the library functions, `strings.ToLower`, the clock, the outcome of
`GenerateSessionToken()`, the draws of the random source for the one-time code, and the
outcome of the mail client's `Send`. -/
structure Env where
  lib : Lib
  ToLower : String → String
  clock : Clock
  token : Except Err String
  first : Except Err (Fin 9)
  rest : Nat → Except Err (Fin 10)
  send : String → SendEmailRequest → Option Err

/-- Go `tolowerall(&s)` for one string. -/
def tolowerall (env : Env) (s : String) : String :=
  if s ≠ "" then env.ToLower s else s

/-- The session cookie `PostLogin`, `PostAdminLogin` and `RegisterUser` set
(`MaxAge: int(24 * time.Hour.Seconds())`). -/
def loginCookie (value : String) : Cookie :=
  { Name := "session", Value := value, Path := "/", HttpOnly := true, Secure := false,
    SameSite := "Strict", MaxAge := 86400 }

/-- The literal `db.User{Email: email, PasswordHash: password}` the handlers pass to
`RegisterUser` and `LoginUser`. -/
def credentials (email password : String) : User :=
  { ID := "", Email := email, PasswordHash := password, GoogleID := "", Oauth := false,
    Verify := false, Role := "", CreatedAt := zeroTime, UpdatedAt := zeroTime }

/-- Go `PostLogin(store, logger)`. After a failed `CreateSession` the handler does not
return: it goes on to `http.SetCookie` with the empty token. -/
def PostLogin {σ : Type} (env : Env) (store : AuthStore σ) : Handler σ := fun r ex =>
  let email := tolowerall env (r.FormValue "email")
  let password := r.FormValue "password"
  match LoginUser env.lib store (credentials email password) ex.world with
  | (Except.ok u, w1) =>
    match CreateSession store.sessions env.token env.clock.session u.ID r w1 with
    | (Except.error _, w2) =>
      (internal { ex with world := w2 }).write (WriterOp.SetCookie (loginCookie ""))
    | (Except.ok cookieHash, w2) =>
      { ex with world := w2 }.write (WriterOp.SetCookie (loginCookie cookieHash))
  | (Except.error err, w1) =>
    let ex1 := { ex with world := w1 }
    if err = Err.ErrInvalidEmailFormat ∨ err = Err.ErrPasswordTooWeak then unprocessable ex1
    else if err = Err.sqlErrNoRows ∨ err = Err.ErrInvalidCredentials then unauthorized ex1
    else internal (ex1.log "ERROR" "unable to create user" (some err))

/-- Go `PostAdminLogin(store, logger, mail)`. As in `PostLogin`, a failed `CreateSession`
does not end the handler. -/
def PostAdminLogin {σ : Type} (env : Env) (store : AuthStore σ) (mail : String) : Handler σ :=
  fun r ex =>
  let email := tolowerall env (r.FormValue "email")
  let password := r.FormValue "password"
  match LoginUser env.lib store (credentials email password) ex.world with
  | (Except.ok u, w1) =>
    let created := CreateSession store.sessions env.token env.clock.session u.ID r w1
    let ex2 : Exchange σ := match created.1 with
      | Except.error _ =>
        (internal { ex with world := created.2 }).write (WriterOp.SetCookie (loginCookie ""))
      | Except.ok cookieHash =>
        { ex with world := created.2 }.write (WriterOp.SetCookie (loginCookie cookieHash))
    let sent := CreateOTP store.otps env.first env.rest env.send env.clock.otp u.ID mail ex2.world
    let ex3 : Exchange σ := { ex2 with world := sent.1.2, mails := ex2.mails ++ sent.2 }
    match sent.1.1 with
    | some err => ex3.log "DEBUG" "unable to created or send otp" (some err)
    | none => ex3.write (WriterOp.Redirect "/admin/verify" 303)
  | (Except.error err, w1) =>
    let ex1 := { ex with world := w1 }
    if err = Err.ErrInvalidEmailFormat ∨ err = Err.ErrPasswordTooWeak then unprocessable ex1
    else if err = Err.sqlErrNoRows ∨ err = Err.ErrInvalidCredentials then unauthorized ex1
    else internal (ex1.log "ERROR" "unable to create user" (some err))

/-- Go `GetVerifyOTP(store, logger)`; without a user in the context `u.ID` panics. -/
def GetVerifyOTP {σ : Type} (store : AuthStore σ) : Handler σ := fun r ex =>
  match contextUser r with
  | none => ex.panic
  | some u =>
    match ex.world.call (Call.UpdateVerify u.ID false) (store.users.UpdateVerify u.ID false) with
    | (some err, w1) => internal ({ ex with world := w1 }.log "PRINT" "err.Error()" (some err))
    | (none, w1) => { ex with world := w1 }.write (WriterOp.Render ["layout.html", "otp.html"])

/-- Go `PostVerifyOTP(store)`; `len(c)` counts bytes. -/
def PostVerifyOTP {σ : Type} (env : Env) (store : AuthStore σ) : Handler σ := fun r ex =>
  let c := r.FormValue "code"
  let n := c.utf8ByteSize
  if c = "" ∨ n ≠ 6 then unprocessable ex
  else
    match contextUser r with
    | none => ex.panic
    | some u =>
      match ValidateOTP store.otps env.clock.since u.ID c ex.world with
      | (none, w1) =>
        match w1.call (Call.UpdateVerify u.ID true) (store.users.UpdateVerify u.ID true) with
        | (some _, w2) => internal { ex with world := w2 }
        | (none, w2) => { ex with world := w2 }.write (WriterOp.Redirect "/admin/dashboard" 303)
      | (some err, w1) =>
        if err = Err.ErrInvalidOTPCode then unprocessable { ex with world := w1 }
        else if err = Err.ErrOTPExpired then
          { ex with world := w1 }.write (WriterOp.Write "expired code")
        else internal { ex with world := w1 }

/-! ## handler/middleware.go -/

/-- The cookie `sessionRefreshMiddleware` sets again after a successful refresh. -/
def refreshedCookie (value : String) : Cookie :=
  { Name := "session", Value := value, Path := "/", HttpOnly := true, Secure := true,
    SameSite := "Strict", MaxAge := 86400 }

/-- The body of `sessionRefreshMiddleware` before `next.ServeHTTP`: refresh the session of
the cookie, if there is one, and set the cookie again when that worked; every failure is
swallowed. -/
def refreshStep {σ : Type} (env : Env) (store : AuthStore σ) (r : Request) (ex : Exchange σ) :
    Exchange σ :=
  match r.SessionCookie with
  | none => ex
  | some value =>
    match RefreshSession store.sessions env.clock.validate env.clock.refresh value ex.world with
    | (none, w1) => { ex with world := w1 }.write (WriterOp.SetCookie (refreshedCookie value))
    | (some _, w1) => { ex with world := w1 }

/-- Go `sessionRefreshMiddleware(store)`. -/
def sessionRefreshMiddleware {σ : Type} (env : Env) (store : AuthStore σ) : middleware σ :=
  fun next r ex => next r (refreshStep env store r ex)

/-- Go `authMiddleware(store, logger)`. -/
def authMiddleware {σ : Type} (store : AuthStore σ) : middleware σ := fun next r ex =>
  match r.SessionCookie with
  | none => ex.write (WriterOp.Redirect "/login" 303)
  | some value =>
    if value = "" then ex.write (WriterOp.Redirect "/login" 303)
    else
      match ex.world.call (Call.GetByCookieHash value) (store.sessions.GetByCookieHash value) with
      | (Except.error err, w1) =>
        ({ ex with world := w1 }.log "ERROR" "failed to get session by hash" (some err)).write
          (WriterOp.Redirect "/login" 303)
      | (Except.ok session, w1) =>
        match w1.call (Call.GetUserByID session.UserID)
            (store.users.GetUserByID session.UserID) with
        | (Except.error err, w2) =>
          ({ ex with world := w2 }.log "ERROR" "failed to get user by ID" (some err)).write
            (WriterOp.Redirect "/login" 303)
        | (Except.ok user, w2) =>
          next { r with ContextUser := some user } { ex with world := w2 }

/-- Go `onlyAdminMiddleware`. -/
def onlyAdminMiddleware {σ : Type} : middleware σ := fun next r ex =>
  match contextUser r with
  | none => ex.write (WriterOp.HttpError "Forbidden" 403)
  | some user =>
    if user.Role ≠ "admin" then ex.write (WriterOp.HttpError "Forbidden" 403)
    else next r ex

/-- Go `mustBeVerifyMiddleware`. -/
def mustBeVerifyMiddleware {σ : Type} : middleware σ := fun next r ex =>
  match contextUser r with
  | none => unauthorized ex
  | some u =>
    if !u.Verify ∧ r.Path ≠ "/verify" then unauthorized ex
    else next r ex

/-- Go `AdminMiddleware(store, logger)`. -/
def AdminMiddleware {σ : Type} (env : Env) (store : AuthStore σ) : List (middleware σ) :=
  [sessionRefreshMiddleware env store, authMiddleware store, onlyAdminMiddleware,
    mustBeVerifyMiddleware]

/-- The key of a visitor: `r.RemoteAddr` up to its last `:` (`strings.LastIndex`), the whole
address when it has none. -/
def visitorKey (remoteAddr : String) : String :=
  match remoteAddr.toList.reverse.dropWhile (fun c => c ≠ ':') with
  | [] => remoteAddr
  | _ :: hostReversed => String.mk hostReversed.reverse

/-- The closure `getVisitor(ip)` followed by `Allow()` at time `now`: the limiter of the
key, created full when the key is new, is asked for one token and stored back. -/
def allowVisitor (interval : Duration) (burst : Int) (ip : String) (now : Time)
    (visitors : List (String × Limiter)) : Bool × List (String × Limiter) :=
  let limiter := match visitors.lookup ip with
    | some l => l
    | none => NewLimiter interval burst now
  let res := limiter.Allow now
  (res.1, (ip, res.2) :: visitors.filter (fun kv => !decide (kv.1 = ip)))

/-- The background goroutine of `rateLimitMiddlewarePerIP`, once every 5 minutes:
`visitors = make(map[string]*rate.Limiter)`. -/
def resetVisitors {σ : Type} (ex : Exchange σ) : Exchange σ :=
  { ex with visitors := [] }

/-- Go `rateLimitMiddlewarePerIP(r, b)` with `r = rate.Every(interval)`. -/
def rateLimitMiddlewarePerIP {σ : Type} (env : Env) (interval : Duration) (burst : Int) :
    middleware σ := fun next r ex =>
  let res := allowVisitor interval burst (visitorKey r.RemoteAddr) env.clock.allow ex.visitors
  if !res.1 then
    { ex with visitors := res.2 }.write (WriterOp.HttpError "Too Many Requests" 429)
  else next r { ex with visitors := res.2 }

/-- The field `statusCode` of the `loggingResponseWriter` after the calls `ops` went through
it: it starts at 200 and every `WriteHeader` (also the one inside `http.Redirect` and
`http.Error`) overwrites it. -/
def loggedStatus (ops : List WriterOp) : Nat :=
  ops.foldl (fun status op =>
    match op with
    | WriterOp.WriteHeader code => code
    | WriterOp.Redirect _ code => code
    | WriterOp.HttpError _ code => code
    | _ => status) 200

/-- Go `loggingMiddleware(logger)`; nothing is logged when the wrapped handler panicked. -/
def loggingMiddleware {σ : Type} (env : Env) : middleware σ := fun next r ex =>
  let served := next r ex
  if served.panicked then served
  else
    { served with logs := served.logs ++ [
      { level := "INFO", msg := "http request handled", err := none,
        attrs := [("method", r.Method), ("path", r.Path),
          ("status", toString (loggedStatus (served.w.drop ex.w.length))),
          ("duration", toString (env.clock.logEnd - env.clock.logStart))] }] }

/-- Go `securityHeadersMiddleware`. -/
def securityHeadersMiddleware {σ : Type} : middleware σ := fun next r ex =>
  let ex1 : Exchange σ := { ex with w := ex.w ++ [
    WriterOp.SetHeader "X-Content-Type-Options" "nosniff",
    WriterOp.SetHeader "Content-Security-Policy" "script-src 'self'; style-src 'self';",
    WriterOp.SetHeader "X-Frame-Options" "DENY",
    WriterOp.SetHeader "X-XSS-Protection" "1; mode=block",
    WriterOp.SetHeader "Referrer-Policy" "strict-origin-when-cross-origin",
    WriterOp.SetHeader "Cache-Control" "no-store, max-age=0",
    WriterOp.SetHeader "Pragma" "no-cache"] }
  let ex2 : Exchange σ :=
    if r.TLS then
      ex1.write (WriterOp.SetHeader "Strict-Transport-Security"
        "max-age=31536000; includeSubDomains")
    else ex1
  next r ex2

/-- Go `AllRouteMiddleware(logger)`: the limiter is `rate.Every(time.Second)` with
burst 10. -/
def AllRouteMiddleware {σ : Type} (env : Env) : List (middleware σ) :=
  [loggingMiddleware env, securityHeadersMiddleware, rateLimitMiddlewarePerIP env second 10]

/-- The decisions of the rate limiter for requests of one key arriving at the listed times,
in order, and the `visitors` map afterwards. -/
def allowMany (interval : Duration) (burst : Int) (ip : String) :
    List Time → List (String × Limiter) → List Bool × List (String × Limiter)
  | [], visitors => ([], visitors)
  | now :: later, visitors =>
    let res := allowVisitor interval burst ip now visitors
    let tail := allowMany interval burst ip later res.2
    (res.1 :: tail.1, tail.2)

/-! ## Sample data used by the concrete evaluations -/

/-- A stand-in for the external functions: an address is accepted when it contains `@`,
the hash of `p` is `"$2a$" ++ p`, and comparison re-hashes. -/
def sampleLib : Lib :=
  { mailParseAddress := fun e => e.toList.contains '@'
    bcryptCompareHashAndPassword := fun h p =>
      if h = "$2a$" ++ p then none else some (Err.other "crypto/bcrypt: hashedPassword is not the hash of the given password")
    HashPassword := fun p => Except.ok ("$2a$" ++ p) }

/-- A registered user with password `"password1"`. -/
def sampleUser : User :=
  { ID := "1", Email := "foo@example.com", PasswordHash := "$2a$password1", GoogleID := "",
    Oauth := false, Verify := false, Role := "user", CreatedAt := 0, UpdatedAt := 0 }

/-- A database holding `sampleUser` only. -/
def sampleDB : DB :=
  { users := [sampleUser], sessions := [], otps := [], now := 0, nextID := 2 }

/-- A request from a browser. -/
def sampleRequest : Request := { ClientIP := some "203.0.113.7", UserAgent := "Mozilla/5.0" }

/-- A session of `sampleUser` that expires at clock reading `100`. -/
def sampleSession : Session :=
  { UserID := "1", Token := "tok", CreatedAt := 0, ExpiresAt := some 100,
    IPAddress := some "203.0.113.7", UserAgent := "Mozilla/5.0" }

/-- A database holding `sampleUser` and `sampleSession`. -/
def sessionDB : DB :=
  { users := [sampleUser], sessions := [sampleSession], otps := [], now := 0, nextID := 2 }

/-- A database whose connection drops on every `DELETE FROM sessions WHERE token = ...`. -/
def deleteFails : Fault := fun c =>
  match c with
  | Call.DeleteByCookieHash _ => some (Err.other "driver: bad connection")
  | _ => none

/-- The row `createdWorld` holds: created at database time 0, expiring at `0 + 24h`. -/
def createdSession : Session :=
  { UserID := "1", Token := "tok", CreatedAt := 0, ExpiresAt := some (0 + sessionDuration),
    IPAddress := some "203.0.113.7", UserAgent := "Mozilla/5.0" }

/-- Is this call an `UpdateExpiry`? -/
def Call.isUpdateExpiry : Call → Bool
  | Call.UpdateExpiry _ _ => true
  | _ => false

/-- The world right after `CreateSession` ran at clock reading 0 for `sampleUser` on
`sampleDB`, the token generator having produced `"tok"`. -/
def createdWorld : World DB :=
  (CreateSession (NewPostgresStore noFault).sessions (Except.ok "tok") 0 "1" sampleRequest
    { st := sampleDB, log := [] }).2

/-- An unused code `123456` issued to `sampleUser` at clock reading 0. -/
def sampleOtp : Otp := { Code := 123456, UserId := "1", CreatedAt := 0, Used := false }

/-- A database holding `sampleUser` and `sampleOtp`. -/
def otpDB : DB :=
  { users := [sampleUser], sessions := [], otps := [sampleOtp], now := 0, nextID := 2 }

/-- A database whose connection drops on every `UPDATE otps SET used = true ...`. -/
def markFails : Fault := fun c =>
  match c with
  | Call.MarkOtpAsUsed _ _ => some (Err.other "driver: bad connection")
  | _ => none

/-- A database in which the code of `sampleOtp` has already been used. -/
def usedOtpDB : DB :=
  { users := [sampleUser], sessions := [], otps := [{ sampleOtp with Used := true }], now := 0,
    nextID := 2 }

/-- A random source whose draw for loop iteration 1 fails; every other draw returns 0. -/
def secondDrawFails : Nat → Except Err (Fin 10) := fun i =>
  if i = 1 then Except.error (Err.other "unexpected EOF") else Except.ok 0

/-- A mail client whose `Send` succeeds. -/
def sendOk : String → SendEmailRequest → Option Err := fun _ _ => none

/-- Clock readings of one request. -/
def sampleClock : Clock :=
  { validate := 101, refresh := 102, session := 103, otp := 104, since := 105, allow := 106,
    logStart := 100, logEnd := 107 }

/-- Surroundings in which everything works: token `"tok2"`, every draw 0 (code 100000). -/
def sampleEnv : Env :=
  { lib := sampleLib, ToLower := fun s => String.mk (s.toList.map Char.toLower),
    clock := sampleClock,
    token := Except.ok "tok2", first := Except.ok 0, rest := fun _ => Except.ok 0,
    send := sendOk }

/-- The record `CreateOTP` persists when a later draw fails: code 0. -/
def zeroOtp : Otp := { Code := 0, UserId := "1", CreatedAt := 104, Used := false }

/-- A verified administrator with password `"password1"`. -/
def adminUser : User :=
  { ID := "1", Email := "admin@admin", PasswordHash := "$2a$password1", GoogleID := "",
    Oauth := false, Verify := true, Role := "admin", CreatedAt := 0, UpdatedAt := 0 }

/-- A database holding `adminUser` and `sampleSession` (of user `"1"`, expiring at 100). -/
def adminDB : DB :=
  { users := [adminUser], sessions := [sampleSession], otps := [], now := 0, nextID := 2 }

/-- A request for the dashboard presenting the cookie `session=tok`. -/
def dashboardRequest : Request :=
  { ClientIP := some "203.0.113.7", UserAgent := "Mozilla/5.0", RemoteAddr := "203.0.113.7:4711",
    Method := "GET", Path := "/dashboard", SessionCookie := some "tok" }

/-- A login form carrying `email` and `password`. -/
def loginRequest (email password : String) : Request :=
  { ClientIP := some "203.0.113.7", UserAgent := "Mozilla/5.0", RemoteAddr := "203.0.113.7:4711",
    Method := "POST", Path := "/admin/login",
    Form := [("email", email), ("password", password)] }

/-- A verification form submitting `code` on behalf of `sampleUser`. -/
def verifyRequest (code : String) : Request :=
  { ClientIP := some "203.0.113.7", UserAgent := "Mozilla/5.0", RemoteAddr := "203.0.113.7:4711",
    Method := "POST", Path := "/verify", Form := [("code", code)],
    SessionCookie := some "tok", ContextUser := some sampleUser }

/-- An exchange that starts on database `db` with nothing written yet. -/
def freshExchange (db : DB) : Exchange DB :=
  { world := { st := db, log := [] }, w := [], logs := [], mails := [], visitors := [],
    panicked := false }

/-- Is this call an `UpdateVerify`? -/
def Call.isUpdateVerify : Call → Bool
  | Call.UpdateVerify _ _ => true
  | _ => false


/-- The world after the session lookup of `authMiddleware` for cookie `value`, and its
result. -/
def authSession {σ : Type} (store : AuthStore σ) (value : String) (ex : Exchange σ) :
    Except Err Session × World σ :=
  ex.world.call (Call.GetByCookieHash value) (store.sessions.GetByCookieHash value)

/-- The world after the user lookup of `authMiddleware` for `session`, and its result. -/
def authUser {σ : Type} (store : AuthStore σ) (value : String) (session : Session)
    (ex : Exchange σ) : Except Err User × World σ :=
  (authSession store value ex).2.call (Call.GetUserByID session.UserID)
    (store.users.GetUserByID session.UserID)

/-- A final handler that only leaves a mark on the response. -/
def markHandler : Handler DB := fun _ ex => ex.write (WriterOp.Write "final handler")

/-- Surroundings whose clock reads 50 and 51 in the session refresh, before `sampleSession`
expires. -/
def earlyEnv : Env :=
  { sampleEnv with clock := { sampleClock with validate := 50, refresh := 51 } }

/-- The record `GetUserByID` returns for `adminUser`: the password hash is cleared. -/
def adminUserResolved : User := { adminUser with PasswordHash := "" }

/-- The decisions of one bucket for requests arriving at the listed times, in order, and
the bucket afterwards. -/
def Limiter.AllowMany (l : Limiter) : List Time → List Bool × Limiter
  | [] => ([], l)
  | now :: later =>
    let tail := Limiter.AllowMany (l.Allow now).2 later
    ((l.Allow now).1 :: tail.1, tail.2)

/-- The arrival times of the burst scenario: eleven requests at `t`, two more `d` later. -/
def burstArrivals (t d : Time) : List Time := List.replicate 11 t ++ [t + d, t + d]

/-- The decisions of the burst scenario: ten passed, one rejected, one passed, one
rejected. -/
def burstDecisions : List Bool := List.replicate 10 true ++ [false, true, false]

/-- Surroundings whose limiter clock reads 0. -/
def burstEnv : Env := { sampleEnv with clock := { sampleClock with allow := 0 } }

/-- A mail client whose `Send` fails. -/
def sendFails : String → SendEmailRequest → Option Err :=
  fun _ _ => some (Err.other "resend: request failed")

/-- A database whose connection drops on every `INSERT INTO otps`. -/
def createOtpFails : Fault := fun c =>
  match c with
  | Call.CreateOtp _ => some (Err.other "driver: bad connection")
  | _ => none

/-- A database whose connection drops on every `INSERT INTO sessions`. -/
def createSessionFails : Fault := fun c =>
  match c with
  | Call.CreateSession _ => some (Err.other "driver: bad connection")
  | _ => none

/-- The record `CreateOTP` persists in `sampleEnv`: every draw is 0, so the code is 100000. -/
def issuedOtp : Otp := { Code := 100000, UserId := "1", CreatedAt := 104, Used := false }

/-- The email `CreateOTP` builds for `issuedOtp`. -/
def issuedMail : SendEmailRequest :=
  { From := "", To := [""], Subject := "", Text := "your code is%!(EXTRA int=100000)" }

/-- The session `CreateSession` builds for user `"1"` and `sampleRequest`-like requests in
`sampleEnv`: token `"tok2"`, expiring 24 hours after clock reading 103. -/
def attemptedSession : Session :=
  { UserID := "1", Token := "tok2", CreatedAt := zeroTime,
    ExpiresAt := some (103 + sessionDuration), IPAddress := some "203.0.113.7",
    UserAgent := "Mozilla/5.0" }

/-- The request for the dashboard that follows a login whose cookie is `"tok2"`: the path
is what `http.StripPrefix("/admin", ...)` leaves of `/admin/dashboard`. -/
def dashboardAfterLogin : Request := { dashboardRequest with SessionCookie := some "tok2" }

/-- The exchange `PostAdminLogin` leaves when the verified administrator of `adminDB` logs
in with everything working. -/
def adminLoggedIn : Exchange DB :=
  PostAdminLogin sampleEnv (NewPostgresStore noFault) "key"
    (loginRequest "admin@admin" "password1") (freshExchange adminDB)

/-! ## Theorems: login and registration -/

/-- C1 (counterexample): the registered `sampleUser`, a well-formed email and the wrong
password `"short"`: `LoginUser` answers `ErrPasswordTooWeak`, not `ErrInvalidCredentials`. -/
theorem LoginUser_short_wrong_password :
    ValidateEmail sampleLib "foo@example.com" = true ∧
    (PostgresStore.GetUserByEmail noFault "foo@example.com" sampleDB).1 = Except.ok sampleUser ∧
    CheckPassword sampleLib sampleUser.PasswordHash "short" ≠ none ∧
    (LoginUser sampleLib (NewPostgresStore noFault) (credentials "foo@example.com" "short")
      { st := sampleDB, log := [] }).1 = Except.error Err.ErrPasswordTooWeak ∧
    Err.ErrPasswordTooWeak ≠ Err.ErrInvalidCredentials := by
  decide

/-- C1 (amended): for a registered user, a well-formed email and a password that does not
match the stored hash, `LoginUser` returns `ErrInvalidCredentials` when the password is 8 to
72 bytes long and `ErrPasswordTooWeak` otherwise; the store is left as the lookup left it
(for the too-weak case, untouched). -/
theorem LoginUser_wrong_password {σ : Type} (lib : Lib) (s : AuthStore σ) (u existing : User)
    (w : World σ) (hemail : ValidateEmail lib u.Email = true)
    (hget : (s.users.GetUserByEmail u.Email w.st).1 = Except.ok existing)
    (hbad : CheckPassword lib existing.PasswordHash u.PasswordHash ≠ none) :
    (LoginUser lib s u w).1 =
      Except.error (if IsValidPasswordLength u.PasswordHash = true then Err.ErrInvalidCredentials
        else Err.ErrPasswordTooWeak) := by
  unfold LoginUser ValidateUserInput
  by_cases hlen : IsValidPasswordLength u.PasswordHash = true
  · simp only [hemail, hlen, Bool.not_true, Bool.false_eq_true, if_false, if_true]
    simp only [World.call, hget]
    cases hc : CheckPassword lib existing.PasswordHash u.PasswordHash with
    | none => exact absurd hc hbad
    | some e => rfl
  · simp [hemail, hlen]

/-- C1 (witness): the amended statement at `sampleUser` with the wrong password
`"wrongpass"`. -/
theorem LoginUser_wrong_password_witness :
    (LoginUser sampleLib (NewPostgresStore noFault) (credentials "foo@example.com" "wrongpass")
      { st := sampleDB, log := [] }).1 =
      Except.error (if IsValidPasswordLength "wrongpass" = true then Err.ErrInvalidCredentials
        else Err.ErrPasswordTooWeak) :=
  LoginUser_wrong_password sampleLib (NewPostgresStore noFault)
    (credentials "foo@example.com" "wrongpass") sampleUser { st := sampleDB, log := [] }
    (by decide) (by decide) (by decide)

/-- General form of the C2 finding: whenever the input is valid, the lookup finds a user and
hashing succeeds, `RegisterUser` goes on to call `CreateUser` and returns that call's
result; `ErrEmailAlreadyInUse` is never produced by `RegisterUser` itself. -/
theorem RegisterUser_existing_email {σ : Type} (lib : Lib) (store : AuthStore σ) (user found : User)
    (w : World σ) (h : String) (hvalid : ValidateUserInput lib user = none)
    (hget : (store.users.GetUserByEmail user.Email w.st).1 = Except.ok found)
    (hhash : lib.HashPassword user.PasswordHash = Except.ok h) :
    (RegisterUser lib store user w).1 =
      (store.users.CreateUser { user with PasswordHash := h }
        (store.users.GetUserByEmail user.Email w.st).2).1 ∧
    (RegisterUser lib store user w).2.log =
      w.log ++ [Call.GetUserByEmail user.Email, Call.CreateUser { user with PasswordHash := h }] := by
  unfold RegisterUser
  simp [hvalid, World.call, hget, hhash]

/-- C2 (the code at the failing input): registering `"foo@example.com"` again, with a
well-formed email and a password of valid length, while the store finds the existing user:
`RegisterUser` does call `CreateUser` and hands back the driver error of the insert, not
`ErrEmailAlreadyInUse`. -/
theorem RegisterUser_existing_email_eval :
    ValidateEmail sampleLib "foo@example.com" = true ∧
    IsValidPasswordLength "password1" = true ∧
    (PostgresStore.GetUserByEmail noFault "foo@example.com" sampleDB).1 = Except.ok sampleUser ∧
    RegisterUser sampleLib (NewPostgresStore noFault) (credentials "foo@example.com" "password1")
        { st := sampleDB, log := [] } =
      (Except.error (Err.other "pq: duplicate key value violates unique constraint"),
        { st := sampleDB,
          log := [Call.GetUserByEmail "foo@example.com",
                  Call.CreateUser (credentials "foo@example.com" "$2a$password1")] }) := by
  decide

/-! ## Theorems: sessions -/

/-- The session lookup of `PostgresStore` never changes the database. -/
theorem PostgresStore.GetByCookieHash_state (fault : Fault) (cookieHash : String) (db : DB) :
    (PostgresStore.GetByCookieHash fault cookieHash db).2 = db := by
  unfold PostgresStore.GetByCookieHash
  cases fault (Call.GetByCookieHash cookieHash) with
  | some e => rfl
  | none =>
    cases db.sessions.find? (fun s => decide (s.Token = cookieHash)) <;> rfl

/-- A successful session lookup of `PostgresStore`: the statement was executed and the
returned record is the first row carrying the token. -/
theorem PostgresStore.GetByCookieHash_ok (fault : Fault) (cookieHash : String) (db : DB)
    (session : Session)
    (h : (PostgresStore.GetByCookieHash fault cookieHash db).1 = Except.ok session) :
    fault (Call.GetByCookieHash cookieHash) = none ∧
    db.sessions.find? (fun s => decide (s.Token = cookieHash)) = some session := by
  unfold PostgresStore.GetByCookieHash at h
  cases hf : fault (Call.GetByCookieHash cookieHash) with
  | some e => simp [hf] at h
  | none =>
    cases hs : db.sessions.find? (fun s => decide (s.Token = cookieHash)) with
    | none => simp [hf, hs] at h
    | some s => simp [hf, hs] at h; simp [h]

/-- After an executed `DELETE FROM sessions WHERE token = $1` no row carries the token. -/
theorem PostgresStore.find_after_delete (cookieHash : String) (l : List Session) :
    (l.filter (fun s => !decide (s.Token = cookieHash))).find?
      (fun s => decide (s.Token = cookieHash)) = none := by
  rw [List.find?_eq_none]
  intro x hx
  simp only [List.mem_filter] at hx
  simpa using hx.2

/-- C3 (counterexample): `sampleSession` expires at 100 and the clock reads 101, on a
database whose delete statement fails. `ValidateSession` reports `ErrSessionExpired`, yet
the record is still stored and the next lookup of the token finds it. -/
theorem ValidateSession_expired_delete_fails :
    (PostgresStore.GetByCookieHash deleteFails "tok" sessionDB).1 = Except.ok sampleSession ∧
    sampleSession.ExpiresAt = some 100 ∧
    (ValidateSession (NewPostgresStore deleteFails).sessions 101 "tok"
      { st := sessionDB, log := [] }).1 = Except.error Err.ErrSessionExpired ∧
    (PostgresStore.GetByCookieHash deleteFails "tok"
      (ValidateSession (NewPostgresStore deleteFails).sessions 101 "tok"
        { st := sessionDB, log := [] }).2.st).1 = Except.ok sampleSession := by
  decide

/-- The two outcomes of `ValidateSession` once the lookup has returned a record. -/
theorem ValidateSession_found {σ : Type} (ss : SessionStore σ) (now : Time) (cookieHash : String)
    (w : World σ) (session : Session) (st1 : σ)
    (hget : ss.GetByCookieHash cookieHash w.st = (Except.ok session, st1)) :
    ValidateSession ss now cookieHash w =
      if sessionExpired session now = true then
        (Except.error Err.ErrSessionExpired,
          { st := (ss.DeleteByCookieHash cookieHash st1).2,
            log := w.log ++ [Call.GetByCookieHash cookieHash, Call.DeleteByCookieHash cookieHash] })
      else (Except.ok session, { st := st1, log := w.log ++ [Call.GetByCookieHash cookieHash] }) := by
  unfold ValidateSession
  simp only [World.call, hget]
  split <;> simp

/-- The outcome of `ValidateSession` when the lookup fails. -/
theorem ValidateSession_not_found {σ : Type} (ss : SessionStore σ) (now : Time)
    (cookieHash : String) (w : World σ) (e : Err) (st1 : σ)
    (hget : ss.GetByCookieHash cookieHash w.st = (Except.error e, st1)) :
    ValidateSession ss now cookieHash w =
      (Except.error Err.ErrInvalidSession,
        { st := st1, log := w.log ++ [Call.GetByCookieHash cookieHash] }) := by
  unfold ValidateSession
  simp only [World.call, hget]

/-- C3 (amended): for a stored session whose expiration is strictly before the clock
reading, `ValidateSession` returns `ErrSessionExpired` after calling `DeleteByCookieHash`
for the token (its outcome is discarded), and when that delete is executed a subsequent
`GetByCookieHash` of the token in the resulting state reports `sql.ErrNoRows`; for a stored
session that is not expired (no expiration, or clock not after it) `ValidateSession`
returns that record and leaves the database unchanged. -/
theorem ValidateSession_stored_session (fault : Fault) (db : DB) (log : List Call) (now : Time)
    (cookieHash : String) (session : Session)
    (hget : (PostgresStore.GetByCookieHash fault cookieHash db).1 = Except.ok session) :
    (∀ expiresAt : Time, session.ExpiresAt = some expiresAt → expiresAt < now →
      (ValidateSession (NewPostgresStore fault).sessions now cookieHash
        { st := db, log := log }).1 = Except.error Err.ErrSessionExpired ∧
      (ValidateSession (NewPostgresStore fault).sessions now cookieHash
        { st := db, log := log }).2.log =
          log ++ [Call.GetByCookieHash cookieHash, Call.DeleteByCookieHash cookieHash] ∧
      (fault (Call.DeleteByCookieHash cookieHash) = none →
        (PostgresStore.GetByCookieHash fault cookieHash
          (ValidateSession (NewPostgresStore fault).sessions now cookieHash
            { st := db, log := log }).2.st).1 = Except.error Err.sqlErrNoRows)) ∧
    ((∀ expiresAt : Time, session.ExpiresAt = some expiresAt → now ≤ expiresAt) →
      ValidateSession (NewPostgresStore fault).sessions now cookieHash { st := db, log := log } =
        (Except.ok session, { st := db, log := log ++ [Call.GetByCookieHash cookieHash] })) := by
  have hst := PostgresStore.GetByCookieHash_state fault cookieHash db
  have hpair : (NewPostgresStore fault).sessions.GetByCookieHash cookieHash
      (World.mk db log).st = (Except.ok session, db) := Prod.ext hget hst
  have hf := (PostgresStore.GetByCookieHash_ok fault cookieHash db session hget).1
  have hval := ValidateSession_found (NewPostgresStore fault).sessions now cookieHash
    { st := db, log := log } session db hpair
  constructor
  · intro expiresAt hE hlt
    have hexp : sessionExpired session now = true := by
      simp [sessionExpired, hE, hlt]
    rw [hval, if_pos hexp]
    refine ⟨rfl, rfl, ?_⟩
    intro hdel
    simp only [NewPostgresStore, PostgresStore.DeleteByCookieHash, hdel,
      PostgresStore.GetByCookieHash, hf, PostgresStore.find_after_delete]
  · intro hnot
    have hexp : ¬ sessionExpired session now = true := by
      unfold sessionExpired
      cases hE : session.ExpiresAt with
      | none => simp
      | some expiresAt => simpa using hnot expiresAt hE
    rw [hval, if_neg hexp]

/-- C3 (witness): the amended statement at `sampleSession` (expiring at 100) on a reliable
database: read at clock 101 it is expired and removed, read at clock 100 it is returned. -/
theorem ValidateSession_stored_session_witness :
    ((ValidateSession (NewPostgresStore noFault).sessions 101 "tok"
        { st := sessionDB, log := [] }).1 = Except.error Err.ErrSessionExpired ∧
      (ValidateSession (NewPostgresStore noFault).sessions 101 "tok"
        { st := sessionDB, log := [] }).2.log =
          [] ++ [Call.GetByCookieHash "tok", Call.DeleteByCookieHash "tok"] ∧
      (PostgresStore.GetByCookieHash noFault "tok"
        (ValidateSession (NewPostgresStore noFault).sessions 101 "tok"
          { st := sessionDB, log := [] }).2.st).1 = Except.error Err.sqlErrNoRows) ∧
    ValidateSession (NewPostgresStore noFault).sessions 100 "tok" { st := sessionDB, log := [] } =
      (Except.ok sampleSession, { st := sessionDB, log := [] ++ [Call.GetByCookieHash "tok"] }) :=
  by
  have h := (ValidateSession_stored_session noFault sessionDB [] 101 "tok" sampleSession
    (by decide)).1 100 (by decide) (by decide)
  refine ⟨⟨h.1, h.2.1, h.2.2 (by decide)⟩, ?_⟩
  refine (ValidateSession_stored_session noFault sessionDB [] 100 "tok" sampleSession
    (by decide)).2 ?_
  intro expiresAt hE
  have h100 : some expiresAt = some (100 : Time) := hE.symm
  rw [Option.some.inj h100]

/-- C4 (counterexample): `sampleSession` expires at 100; at clock reading 100, which is not
strictly before the expiration, `ValidateSession` still returns the session. -/
theorem ValidateSession_succeeds_at_expiration :
    sampleSession.ExpiresAt = some 100 ∧
    (ValidateSession (NewPostgresStore noFault).sessions 100 "tok"
      { st := sessionDB, log := [] }).1 = Except.ok sampleSession ∧
    ¬ ((100 : Time) < 100) := by
  decide

/-- C4 (amended): for a stored session with expiration `expiresAt`, `ValidateSession`
returns the session successfully if and only if the clock reading is not after `expiresAt`
(`now ≤ expiresAt`, equality included); otherwise it returns `ErrSessionExpired`. -/
theorem ValidateSession_succeeds_iff {σ : Type} (ss : SessionStore σ) (now : Time)
    (cookieHash : String) (w : World σ) (session : Session) (expiresAt : Time)
    (hget : (ss.GetByCookieHash cookieHash w.st).1 = Except.ok session)
    (hE : session.ExpiresAt = some expiresAt) :
    ((ValidateSession ss now cookieHash w).1 = Except.ok session ↔ now ≤ expiresAt) ∧
    ((ValidateSession ss now cookieHash w).1 = Except.error Err.ErrSessionExpired ↔
      expiresAt < now) ∧
    (∀ r, (ValidateSession ss now cookieHash w).1 = Except.ok r → r = session) := by
  have hval := ValidateSession_found ss now cookieHash w session
    (ss.GetByCookieHash cookieHash w.st).2 (Prod.ext hget rfl)
  by_cases hlt : expiresAt < now
  · have hexp : sessionExpired session now = true := by simp [sessionExpired, hE, hlt]
    rw [hval, if_pos hexp]
    simp [hlt]
  · have hexp : ¬ sessionExpired session now = true := by simp [sessionExpired, hE, hlt]
    rw [hval, if_neg hexp]
    simp only [not_lt] at hlt
    simp [hlt]

/-- C4 (witness): the amended statement at `sampleSession` and clock reading 100. -/
theorem ValidateSession_succeeds_iff_witness :
    ((ValidateSession (NewPostgresStore noFault).sessions 100 "tok"
        { st := sessionDB, log := [] }).1 = Except.ok sampleSession ↔ (100 : Time) ≤ 100) ∧
    ((ValidateSession (NewPostgresStore noFault).sessions 100 "tok"
        { st := sessionDB, log := [] }).1 = Except.error Err.ErrSessionExpired ↔
      (100 : Time) < 100) := by
  have h := ValidateSession_succeeds_iff (NewPostgresStore noFault).sessions 100 "tok"
    { st := sessionDB, log := [] } sampleSession 100 (by decide) (by decide)
  exact ⟨h.1, h.2.1⟩

/-- C5 (counterexample): a session created by `CreateSession` at clock reading 0 expires at
`0 + 24h`. `RefreshSession` at the same clock reading succeeds and writes `0 + 24h` again:
the written expiration is not strictly later than the one the session had. -/
theorem RefreshSession_same_clock_reading :
    (PostgresStore.GetByCookieHash noFault "tok" createdWorld.st).1.map Session.ExpiresAt =
      Except.ok (some sessionDuration) ∧
    (RefreshSession (NewPostgresStore noFault).sessions 0 0 "tok" createdWorld).1 = none ∧
    (RefreshSession (NewPostgresStore noFault).sessions 0 0 "tok" createdWorld).2.log =
      createdWorld.log ++ [Call.GetByCookieHash "tok", Call.UpdateExpiry "tok" (0 + sessionDuration)] ∧
    (PostgresStore.GetByCookieHash noFault "tok"
      (RefreshSession (NewPostgresStore noFault).sessions 0 0 "tok" createdWorld).2.st).1.map
        Session.ExpiresAt = Except.ok (some sessionDuration) ∧
    ¬ (sessionDuration < 0 + sessionDuration) := by
  decide

/-- Rows are looked up by a key the update leaves alone: the first matching row after the
update is the update of the first matching row before it. -/
theorem find_map_of_preserved {α : Type} (p : α → Bool) (f : α → α) (hp : ∀ x, p (f x) = p x)
    (l : List α) : (l.map f).find? p = (l.find? p).map f := by
  induction l with
  | nil => rfl
  | cons a t ih =>
    simp only [List.map_cons, List.find?_cons, hp]
    cases p a
    · simpa using ih
    · rfl

/-- C5 (amended): for a stored session with expiration `expiresAt` on which `RefreshSession`
succeeds, exactly one `UpdateExpiry` is issued, with the value `now2 + 24h` (`now2` being
the clock read after validation, `now1` the one read by validation), the stored record then
carries that expiration, `now1` was not after `expiresAt`, and the written value is
strictly later than `expiresAt` exactly when `now2` is later than `expiresAt - 24h`. -/
theorem RefreshSession_written_expiry (fault : Fault) (db : DB) (log : List Call)
    (now1 now2 : Time) (cookieHash : String) (session : Session) (expiresAt : Time)
    (hget : (PostgresStore.GetByCookieHash fault cookieHash db).1 = Except.ok session)
    (hE : session.ExpiresAt = some expiresAt)
    (hok : (RefreshSession (NewPostgresStore fault).sessions now1 now2 cookieHash
      { st := db, log := log }).1 = none) :
    (RefreshSession (NewPostgresStore fault).sessions now1 now2 cookieHash
      { st := db, log := log }).2.log =
        log ++ [Call.GetByCookieHash cookieHash,
          Call.UpdateExpiry cookieHash (now2 + sessionDuration)] ∧
    (PostgresStore.GetByCookieHash fault cookieHash
      (RefreshSession (NewPostgresStore fault).sessions now1 now2 cookieHash
        { st := db, log := log }).2.st).1 =
        Except.ok { session with ExpiresAt := some (now2 + sessionDuration) } ∧
    now1 ≤ expiresAt ∧
    (expiresAt < now2 + sessionDuration ↔ expiresAt - sessionDuration < now2) := by
  have hst := PostgresStore.GetByCookieHash_state fault cookieHash db
  have hpair : (NewPostgresStore fault).sessions.GetByCookieHash cookieHash
      (World.mk db log).st = (Except.ok session, db) := Prod.ext hget hst
  obtain ⟨hf, hfind⟩ := PostgresStore.GetByCookieHash_ok fault cookieHash db session hget
  have hval := ValidateSession_found (NewPostgresStore fault).sessions now1 cookieHash
    { st := db, log := log } session db hpair
  unfold RefreshSession at hok ⊢
  rw [hval] at hok ⊢
  by_cases hexp : sessionExpired session now1 = true
  · rw [if_pos hexp] at hok
    simp at hok
  · rw [if_neg hexp] at hok ⊢
    simp only [World.call, NewPostgresStore, PostgresStore.UpdateExpiry] at hok ⊢
    cases hu : fault (Call.UpdateExpiry cookieHash (now2 + sessionDuration)) with
    | some e => simp [hu] at hok
    | none =>
      simp only [hu]
      have hle : now1 ≤ expiresAt := by
        simpa [sessionExpired, hE] using hexp
      refine ⟨by simp, ?_, hle, by constructor <;> intro h <;> linarith⟩
      simp only [PostgresStore.GetByCookieHash, hf]
      rw [find_map_of_preserved (fun s : Session => decide (s.Token = cookieHash))]
      · have htok : session.Token = cookieHash := by simpa using List.find?_some hfind
        simp [hfind, htok]
      · intro x
        by_cases hx : x.Token = cookieHash <;> simp [hx]

/-- C5 (witness): the amended statement for the session of `createdWorld`, refreshed at
clock readings 5 and 7. -/
theorem RefreshSession_written_expiry_witness :
    (RefreshSession (NewPostgresStore noFault).sessions 5 7 "tok"
      { st := createdWorld.st, log := [] }).2.log =
        [] ++ [Call.GetByCookieHash "tok", Call.UpdateExpiry "tok" (7 + sessionDuration)] ∧
    (PostgresStore.GetByCookieHash noFault "tok"
      (RefreshSession (NewPostgresStore noFault).sessions 5 7 "tok"
        { st := createdWorld.st, log := [] }).2.st).1 =
        Except.ok { createdSession with ExpiresAt := some (7 + sessionDuration) } ∧
    (5 : Time) ≤ 0 + sessionDuration ∧
    ((0 + sessionDuration : Time) < 7 + sessionDuration ↔
      (0 + sessionDuration : Time) - sessionDuration < 7) :=
  RefreshSession_written_expiry noFault createdWorld.st [] 5 7 "tok" createdSession
    (0 + sessionDuration) (by decide) (by decide) (by decide)

/-- Whatever the store does, `ValidateSession` appends to the call log only a lookup and
possibly a delete: the `UpdateExpiry` calls of the log are those it started with. -/
theorem ValidateSession_no_UpdateExpiry {σ : Type} (ss : SessionStore σ) (now : Time)
    (cookieHash : String) (w : World σ) :
    (ValidateSession ss now cookieHash w).2.log.filter Call.isUpdateExpiry =
      w.log.filter Call.isUpdateExpiry := by
  cases hg : (ss.GetByCookieHash cookieHash w.st).1 with
  | error e =>
    rw [ValidateSession_not_found ss now cookieHash w e _ (Prod.ext hg rfl)]
    simp [List.filter_append, Call.isUpdateExpiry]
  | ok session =>
    rw [ValidateSession_found ss now cookieHash w session _ (Prod.ext hg rfl)]
    split <;> simp [List.filter_append, Call.isUpdateExpiry]

/-- A failed validation is all `RefreshSession` does: same error, same world. -/
theorem RefreshSession_of_validation_error {σ : Type} (ss : SessionStore σ) (now1 now2 : Time)
    (cookieHash : String) (w : World σ) (err : Err)
    (herr : (ValidateSession ss now1 cookieHash w).1 = Except.error err) :
    RefreshSession ss now1 now2 cookieHash w =
      (some err, (ValidateSession ss now1 cookieHash w).2) := by
  unfold RefreshSession
  have hp : ValidateSession ss now1 cookieHash w =
      (Except.error err, (ValidateSession ss now1 cookieHash w).2) := Prod.ext herr rfl
  rw [hp]

/-- C6: when `ValidateSession` fails with `err` (unknown token or expired session),
`RefreshSession` returns exactly `err`, its effect on the store and on the call log is that
of `ValidateSession` alone, and no `UpdateExpiry` call is made; a stored session whose
expiration is strictly before the clock reading always makes `RefreshSession` fail with
`ErrSessionExpired`, and an unknown token with `ErrInvalidSession`. -/
theorem RefreshSession_validation_fails {σ : Type} (ss : SessionStore σ) (now1 now2 : Time)
    (cookieHash : String) (w : World σ) :
    (∀ err, (ValidateSession ss now1 cookieHash w).1 = Except.error err →
      RefreshSession ss now1 now2 cookieHash w =
        (some err, (ValidateSession ss now1 cookieHash w).2) ∧
      (RefreshSession ss now1 now2 cookieHash w).2.log.filter Call.isUpdateExpiry =
        w.log.filter Call.isUpdateExpiry) ∧
    (∀ session expiresAt, (ss.GetByCookieHash cookieHash w.st).1 = Except.ok session →
      session.ExpiresAt = some expiresAt → expiresAt < now1 →
      (RefreshSession ss now1 now2 cookieHash w).1 = some Err.ErrSessionExpired ∧
      (RefreshSession ss now1 now2 cookieHash w).2.log.filter Call.isUpdateExpiry =
        w.log.filter Call.isUpdateExpiry) ∧
    (∀ e, (ss.GetByCookieHash cookieHash w.st).1 = Except.error e →
      (RefreshSession ss now1 now2 cookieHash w).1 = some Err.ErrInvalidSession ∧
      (RefreshSession ss now1 now2 cookieHash w).2.log.filter Call.isUpdateExpiry =
        w.log.filter Call.isUpdateExpiry) := by
  have hfail : ∀ err, (ValidateSession ss now1 cookieHash w).1 = Except.error err →
      RefreshSession ss now1 now2 cookieHash w =
        (some err, (ValidateSession ss now1 cookieHash w).2) := by
    intro err herr
    exact RefreshSession_of_validation_error ss now1 now2 cookieHash w err herr
  have hlog : ∀ err, (ValidateSession ss now1 cookieHash w).1 = Except.error err →
      (RefreshSession ss now1 now2 cookieHash w).2.log.filter Call.isUpdateExpiry =
        w.log.filter Call.isUpdateExpiry := by
    intro err herr
    rw [hfail err herr]
    exact ValidateSession_no_UpdateExpiry ss now1 cookieHash w
  refine ⟨fun err herr => ⟨hfail err herr, hlog err herr⟩, ?_, ?_⟩
  · intro session expiresAt hget hE hlt
    have hexp : sessionExpired session now1 = true := by simp [sessionExpired, hE, hlt]
    have hv : (ValidateSession ss now1 cookieHash w).1 = Except.error Err.ErrSessionExpired := by
      rw [ValidateSession_found ss now1 cookieHash w session _ (Prod.ext hget rfl), if_pos hexp]
    exact ⟨by rw [hfail _ hv], hlog _ hv⟩
  · intro e hget
    have hv : (ValidateSession ss now1 cookieHash w).1 = Except.error Err.ErrInvalidSession := by
      rw [ValidateSession_not_found ss now1 cookieHash w e _ (Prod.ext hget rfl)]
    exact ⟨by rw [hfail _ hv], hlog _ hv⟩

/-- C6 (witness): an expired session (`sampleSession` at clock 101) and an unknown token on
a reliable database. -/
theorem RefreshSession_validation_fails_witness :
    (RefreshSession (NewPostgresStore noFault).sessions 101 102 "tok"
        { st := sessionDB, log := [] } =
        (some Err.ErrSessionExpired,
          (ValidateSession (NewPostgresStore noFault).sessions 101 "tok"
            { st := sessionDB, log := [] }).2) ∧
      (RefreshSession (NewPostgresStore noFault).sessions 101 102 "tok"
        { st := sessionDB, log := [] }).2.log.filter Call.isUpdateExpiry =
        ([] : List Call).filter Call.isUpdateExpiry) ∧
    ((RefreshSession (NewPostgresStore noFault).sessions 101 102 "tok"
        { st := sessionDB, log := [] }).1 = some Err.ErrSessionExpired ∧
      (RefreshSession (NewPostgresStore noFault).sessions 101 102 "tok"
        { st := sessionDB, log := [] }).2.log.filter Call.isUpdateExpiry =
        ([] : List Call).filter Call.isUpdateExpiry) ∧
    ((RefreshSession (NewPostgresStore noFault).sessions 101 102 "nope"
        { st := sessionDB, log := [] }).1 = some Err.ErrInvalidSession ∧
      (RefreshSession (NewPostgresStore noFault).sessions 101 102 "nope"
        { st := sessionDB, log := [] }).2.log.filter Call.isUpdateExpiry =
        ([] : List Call).filter Call.isUpdateExpiry) :=
  ⟨(RefreshSession_validation_fails (NewPostgresStore noFault).sessions 101 102 "tok"
      { st := sessionDB, log := [] }).1 Err.ErrSessionExpired (by decide),
   (RefreshSession_validation_fails (NewPostgresStore noFault).sessions 101 102 "tok"
      { st := sessionDB, log := [] }).2.1 sampleSession 100 (by decide) (by decide) (by decide),
   (RefreshSession_validation_fails (NewPostgresStore noFault).sessions 101 102 "nope"
      { st := sessionDB, log := [] }).2.2 Err.sqlErrNoRows (by decide)⟩

/-- On `PostgresStore`, whatever statements fail, a `RefreshSession` that returns an error
leaves every stored session as it was or removes it: the session table afterwards is a
sublist of the table before. -/
theorem RefreshSession_error_sessions_sublist (fault : Fault) (db : DB) (log : List Call)
    (now1 now2 : Time) (cookieHash : String) (err : Err)
    (herr : (ValidateSession (NewPostgresStore fault).sessions now1 cookieHash
      { st := db, log := log }).1 = Except.error err) :
    List.Sublist
      (RefreshSession (NewPostgresStore fault).sessions now1 now2 cookieHash
        { st := db, log := log }).2.st.sessions db.sessions := by
  rw [RefreshSession_of_validation_error (NewPostgresStore fault).sessions now1 now2
    cookieHash { st := db, log := log } err herr]
  have hst := PostgresStore.GetByCookieHash_state fault cookieHash db
  cases hg : (PostgresStore.GetByCookieHash fault cookieHash db).1 with
  | error e =>
    have hpair : (NewPostgresStore fault).sessions.GetByCookieHash cookieHash
        (World.mk db log).st = (Except.error e, db) := Prod.ext hg hst
    rw [ValidateSession_not_found _ now1 cookieHash _ e db hpair]
  | ok session =>
    have hpair : (NewPostgresStore fault).sessions.GetByCookieHash cookieHash
        (World.mk db log).st = (Except.ok session, db) := Prod.ext hg hst
    rw [ValidateSession_found _ now1 cookieHash _ session db hpair]
    split
    · simp only [NewPostgresStore, PostgresStore.DeleteByCookieHash]
      cases fault (Call.DeleteByCookieHash cookieHash) with
      | some e => exact List.Sublist.refl _
      | none => exact List.filter_sublist _
    · exact List.Sublist.refl _

/-! ## Theorems: one-time codes -/

/-- C7 (counterexample): the numeric code `"123456"` of `sampleOtp`, stored, unused and one
minute old, on a database whose update statement fails: `ValidateOTP` calls
`MarkOtpAsUsed` and returns the wrapped store error, not `nil`. -/
theorem ValidateOTP_mark_fails :
    Atoi "123456" = Except.ok 123456 ∧
    (PostgresStore.GetOtp markFails "1" 123456 otpDB).1 = Except.ok sampleOtp ∧
    ¬ (minute - sampleOtp.CreatedAt > 5 * minute) ∧
    sampleOtp.Used = false ∧
    ValidateOTP (NewPostgresStore markFails).otps minute "1" "123456" { st := otpDB, log := [] } =
      (some (Err.wrapped "failed to mark OTP as used" (Err.other "driver: bad connection")),
        { st := otpDB, log := [Call.GetOtp "1" 123456, Call.MarkOtpAsUsed "1" 123456] }) := by
  decide

/-- The outcome of `ValidateOTP` when the lookup fails. -/
theorem ValidateOTP_not_found {σ : Type} (store : OtpStore σ) (now : Time)
    (userId code : String) (intcode : Int) (w : World σ) (e : Err)
    (hnum : Atoi code = Except.ok intcode)
    (hget : (store.GetOtp userId intcode w.st).1 = Except.error e) :
    ValidateOTP store now userId code w =
      (some Err.ErrInvalidOTPCode,
        { st := (store.GetOtp userId intcode w.st).2,
          log := w.log ++ [Call.GetOtp userId intcode] }) := by
  unfold ValidateOTP
  simp only [hnum, World.call, hget]

/-- The outcome of `ValidateOTP` for a record older than 5 minutes. -/
theorem ValidateOTP_old {σ : Type} (store : OtpStore σ) (now : Time)
    (userId code : String) (intcode : Int) (w : World σ) (otp : Otp)
    (hnum : Atoi code = Except.ok intcode)
    (hget : (store.GetOtp userId intcode w.st).1 = Except.ok otp)
    (hold : now - otp.CreatedAt > 5 * minute) :
    ValidateOTP store now userId code w =
      (some Err.ErrOTPExpired,
        { st := (store.GetOtp userId intcode w.st).2,
          log := w.log ++ [Call.GetOtp userId intcode] }) := by
  unfold ValidateOTP
  simp only [hnum, World.call, hget, if_pos hold]

/-- The outcome of `ValidateOTP` for a used record that is not older than 5 minutes. -/
theorem ValidateOTP_used {σ : Type} (store : OtpStore σ) (now : Time)
    (userId code : String) (intcode : Int) (w : World σ) (otp : Otp)
    (hnum : Atoi code = Except.ok intcode)
    (hget : (store.GetOtp userId intcode w.st).1 = Except.ok otp)
    (hfresh : ¬ now - otp.CreatedAt > 5 * minute) (hused : otp.Used = true) :
    ValidateOTP store now userId code w =
      (some Err.ErrInvalidOTPCode,
        { st := (store.GetOtp userId intcode w.st).2,
          log := w.log ++ [Call.GetOtp userId intcode] }) := by
  unfold ValidateOTP
  simp only [hnum, World.call, hget, if_neg hfresh, hused, if_true]

/-- The outcome of `ValidateOTP` for an unused record that is not older than 5 minutes. -/
theorem ValidateOTP_unused {σ : Type} (store : OtpStore σ) (now : Time)
    (userId code : String) (intcode : Int) (w : World σ) (otp : Otp)
    (hnum : Atoi code = Except.ok intcode)
    (hget : (store.GetOtp userId intcode w.st).1 = Except.ok otp)
    (hfresh : ¬ now - otp.CreatedAt > 5 * minute) (hunused : otp.Used = false) :
    ValidateOTP store now userId code w =
      ((store.MarkOtpAsUsed userId intcode (store.GetOtp userId intcode w.st).2).1.map
          (Err.wrapped "failed to mark OTP as used"),
        { st := (store.MarkOtpAsUsed userId intcode (store.GetOtp userId intcode w.st).2).2,
          log := w.log ++ [Call.GetOtp userId intcode, Call.MarkOtpAsUsed userId intcode] }) := by
  unfold ValidateOTP
  simp only [hnum, World.call, hget, if_neg hfresh, hunused]
  cases hm : (store.MarkOtpAsUsed userId intcode (store.GetOtp userId intcode w.st).2).1 <;>
    simp

/-- C7 (amended): for a numeric submitted code, `ValidateOTP` looks the record up once and
then: a failed lookup gives `ErrInvalidOTPCode`; else a record older than 5 minutes gives
`ErrOTPExpired`, used or not; else a used record gives `ErrInvalidOTPCode`; in these three
cases `GetOtp` is the only store call. Otherwise it calls `MarkOtpAsUsed` for
`(userId, code)` and returns `nil` when that call succeeds and the call's error, wrapped,
when it fails. -/
theorem ValidateOTP_decision_order {σ : Type} (store : OtpStore σ) (now : Time)
    (userId code : String) (intcode : Int) (w : World σ)
    (hnum : Atoi code = Except.ok intcode) :
    (∀ e, (store.GetOtp userId intcode w.st).1 = Except.error e →
      ValidateOTP store now userId code w =
        (some Err.ErrInvalidOTPCode,
          { st := (store.GetOtp userId intcode w.st).2,
            log := w.log ++ [Call.GetOtp userId intcode] })) ∧
    (∀ otp, (store.GetOtp userId intcode w.st).1 = Except.ok otp →
      now - otp.CreatedAt > 5 * minute →
      ValidateOTP store now userId code w =
        (some Err.ErrOTPExpired,
          { st := (store.GetOtp userId intcode w.st).2,
            log := w.log ++ [Call.GetOtp userId intcode] })) ∧
    (∀ otp, (store.GetOtp userId intcode w.st).1 = Except.ok otp →
      ¬ now - otp.CreatedAt > 5 * minute → otp.Used = true →
      ValidateOTP store now userId code w =
        (some Err.ErrInvalidOTPCode,
          { st := (store.GetOtp userId intcode w.st).2,
            log := w.log ++ [Call.GetOtp userId intcode] })) ∧
    (∀ otp, (store.GetOtp userId intcode w.st).1 = Except.ok otp →
      ¬ now - otp.CreatedAt > 5 * minute → otp.Used = false →
      ValidateOTP store now userId code w =
        ((store.MarkOtpAsUsed userId intcode (store.GetOtp userId intcode w.st).2).1.map
            (Err.wrapped "failed to mark OTP as used"),
          { st := (store.MarkOtpAsUsed userId intcode (store.GetOtp userId intcode w.st).2).2,
            log := w.log ++ [Call.GetOtp userId intcode, Call.MarkOtpAsUsed userId intcode] })) := by
  exact ⟨fun e hget => ValidateOTP_not_found store now userId code intcode w e hnum hget,
    fun otp hget hold => ValidateOTP_old store now userId code intcode w otp hnum hget hold,
    fun otp hget hfresh hused =>
      ValidateOTP_used store now userId code intcode w otp hnum hget hfresh hused,
    fun otp hget hfresh hunused =>
      ValidateOTP_unused store now userId code intcode w otp hnum hget hfresh hunused⟩

/-- C7 (witness): the four cases of the amended statement on a reliable database: an
unknown code, `sampleOtp` six minutes old, an already used code, and `sampleOtp` one minute
old. -/
theorem ValidateOTP_decision_order_witness :
    ValidateOTP (NewPostgresStore noFault).otps minute "1" "999999" { st := otpDB, log := [] } =
      (some Err.ErrInvalidOTPCode,
        { st := ((NewPostgresStore noFault).otps.GetOtp "1" 999999 otpDB).2,
          log := [] ++ [Call.GetOtp "1" 999999] }) ∧
    ValidateOTP (NewPostgresStore noFault).otps (6 * minute) "1" "123456"
        { st := otpDB, log := [] } =
      (some Err.ErrOTPExpired,
        { st := ((NewPostgresStore noFault).otps.GetOtp "1" 123456 otpDB).2,
          log := [] ++ [Call.GetOtp "1" 123456] }) ∧
    ValidateOTP (NewPostgresStore noFault).otps minute "1" "123456"
        { st := usedOtpDB, log := [] } =
      (some Err.ErrInvalidOTPCode,
        { st := ((NewPostgresStore noFault).otps.GetOtp "1" 123456 usedOtpDB).2,
          log := [] ++ [Call.GetOtp "1" 123456] }) ∧
    ValidateOTP (NewPostgresStore noFault).otps minute "1" "123456" { st := otpDB, log := [] } =
      (((NewPostgresStore noFault).otps.MarkOtpAsUsed "1" 123456
          ((NewPostgresStore noFault).otps.GetOtp "1" 123456 otpDB).2).1.map
            (Err.wrapped "failed to mark OTP as used"),
        { st := ((NewPostgresStore noFault).otps.MarkOtpAsUsed "1" 123456
            ((NewPostgresStore noFault).otps.GetOtp "1" 123456 otpDB).2).2,
          log := [] ++ [Call.GetOtp "1" 123456, Call.MarkOtpAsUsed "1" 123456] }) :=
  ⟨(ValidateOTP_decision_order (NewPostgresStore noFault).otps minute "1" "999999" 999999
      { st := otpDB, log := [] } (by decide)).1 Err.sqlErrNoRows (by decide),
   (ValidateOTP_decision_order (NewPostgresStore noFault).otps (6 * minute) "1" "123456" 123456
      { st := otpDB, log := [] } (by decide)).2.1 sampleOtp (by decide) (by decide),
   (ValidateOTP_decision_order (NewPostgresStore noFault).otps minute "1" "123456" 123456
      { st := usedOtpDB, log := [] } (by decide)).2.2.1 { sampleOtp with Used := true }
      (by decide) (by decide) (by decide),
   (ValidateOTP_decision_order (NewPostgresStore noFault).otps minute "1" "123456" 123456
      { st := otpDB, log := [] } (by decide)).2.2.2 sampleOtp (by decide) (by decide) (by decide)⟩

/-- The code lookup of `PostgresStore` never changes the database. -/
theorem PostgresStore.GetOtp_state (fault : Fault) (userId : String) (code : Int) (db : DB) :
    (PostgresStore.GetOtp fault userId code db).2 = db := by
  unfold PostgresStore.GetOtp
  cases fault (Call.GetOtp userId code) with
  | some e => rfl
  | none =>
    cases db.otps.find? (fun o => decide (o.UserId = userId) && decide (o.Code = code)) <;> rfl

/-- A successful code lookup of `PostgresStore`: the statement was executed and the record
is the first row for `(userId, code)`. -/
theorem PostgresStore.GetOtp_ok (fault : Fault) (userId : String) (code : Int) (db : DB)
    (otp : Otp) (h : (PostgresStore.GetOtp fault userId code db).1 = Except.ok otp) :
    fault (Call.GetOtp userId code) = none ∧
    db.otps.find? (fun o => decide (o.UserId = userId) && decide (o.Code = code)) = some otp := by
  unfold PostgresStore.GetOtp at h
  cases hf : fault (Call.GetOtp userId code) with
  | some e => simp [hf] at h
  | none =>
    cases hs : db.otps.find? (fun o => decide (o.UserId = userId) && decide (o.Code = code)) with
    | none => simp [hf, hs] at h
    | some s => simp [hf, hs] at h; simp [h]

/-- C8: on `PostgresStore` with the lookup and the update executed, an issued unused code
not older than 5 minutes verifies (`nil`) on the first `ValidateOTP`, which marks it used;
a second `ValidateOTP` of the same user id and code returns `ErrInvalidOTPCode` while the
code is still not older than 5 minutes, never succeeds whatever the clock reads, and makes
no further `MarkOtpAsUsed` call. -/
theorem ValidateOTP_twice (fault : Fault) (db : DB) (log : List Call) (now1 now2 : Time)
    (userId code : String) (intcode : Int) (otp : Otp)
    (hnum : Atoi code = Except.ok intcode)
    (hget : (PostgresStore.GetOtp fault userId intcode db).1 = Except.ok otp)
    (hunused : otp.Used = false)
    (hfresh : now1 - otp.CreatedAt ≤ 5 * minute)
    (hmark : fault (Call.MarkOtpAsUsed userId intcode) = none) :
    (ValidateOTP (NewPostgresStore fault).otps now1 userId code { st := db, log := log }).1 = none ∧
    (now2 - otp.CreatedAt ≤ 5 * minute →
      (ValidateOTP (NewPostgresStore fault).otps now2 userId code
        (ValidateOTP (NewPostgresStore fault).otps now1 userId code
          { st := db, log := log }).2).1 = some Err.ErrInvalidOTPCode) ∧
    (ValidateOTP (NewPostgresStore fault).otps now2 userId code
      (ValidateOTP (NewPostgresStore fault).otps now1 userId code
        { st := db, log := log }).2).1 ≠ none ∧
    (ValidateOTP (NewPostgresStore fault).otps now2 userId code
      (ValidateOTP (NewPostgresStore fault).otps now1 userId code
        { st := db, log := log }).2).2.log =
      log ++ [Call.GetOtp userId intcode, Call.MarkOtpAsUsed userId intcode,
        Call.GetOtp userId intcode] := by
  obtain ⟨hf, hfind⟩ := PostgresStore.GetOtp_ok fault userId intcode db otp hget
  have hkey : otp.UserId = userId ∧ otp.Code = intcode := by
    simpa using List.find?_some hfind
  have hnotold : ¬ now1 - otp.CreatedAt > 5 * minute := not_lt.mpr hfresh
  -- the first call
  have h1 := ValidateOTP_unused (NewPostgresStore fault).otps now1 userId code intcode
    { st := db, log := log } otp hnum hget hnotold hunused
  have hst : ((NewPostgresStore fault).otps.GetOtp userId intcode
      (World.mk db log).st).2 = db := PostgresStore.GetOtp_state fault userId intcode db
  rw [hst] at h1
  have hmarked : (NewPostgresStore fault).otps.MarkOtpAsUsed userId intcode db =
      (none, { db with otps := db.otps.map (fun o =>
        if o.UserId = userId ∧ o.Code = intcode then { o with Used := true } else o) }) := by
    simp only [NewPostgresStore, PostgresStore.MarkOtpAsUsed, hmark]
  rw [hmarked] at h1
  simp only [Option.map_none', World.log] at h1
  -- the second call finds the same row, now used
  have hget2 : ((NewPostgresStore fault).otps.GetOtp userId intcode
      { db with otps := db.otps.map (fun o =>
        if o.UserId = userId ∧ o.Code = intcode then { o with Used := true } else o) }).1 =
      Except.ok { otp with Used := true } := by
    simp only [NewPostgresStore, PostgresStore.GetOtp, hf]
    rw [find_map_of_preserved
      (fun o : Otp => decide (o.UserId = userId) && decide (o.Code = intcode))]
    · simp [hfind, hkey]
    · intro x
      by_cases hx : x.UserId = userId ∧ x.Code = intcode
      · simp [hx]
      · simp [hx]
  rw [h1]
  refine ⟨rfl, ?_, ?_, ?_⟩
  · intro hfresh2
    rw [ValidateOTP_used _ now2 userId code intcode _ { otp with Used := true } hnum hget2 (not_lt.mpr hfresh2) rfl]
  · by_cases hold : now2 - otp.CreatedAt > 5 * minute
    · rw [ValidateOTP_old _ now2 userId code intcode _ { otp with Used := true } hnum hget2 hold]; simp
    · rw [ValidateOTP_used _ now2 userId code intcode _ { otp with Used := true } hnum hget2 hold rfl]; simp
  · by_cases hold : now2 - otp.CreatedAt > 5 * minute
    · rw [ValidateOTP_old _ now2 userId code intcode _ { otp with Used := true } hnum hget2 hold]; simp
    · rw [ValidateOTP_used _ now2 userId code intcode _ { otp with Used := true } hnum hget2 hold rfl]; simp

/-- C8 (witness): `sampleOtp` verified at clock readings one and two minutes after issue, on
a reliable database: `nil`, then `ErrInvalidOTPCode`. -/
theorem ValidateOTP_twice_witness :
    (ValidateOTP (NewPostgresStore noFault).otps minute "1" "123456"
      { st := otpDB, log := [] }).1 = none ∧
    (ValidateOTP (NewPostgresStore noFault).otps (2 * minute) "1" "123456"
      (ValidateOTP (NewPostgresStore noFault).otps minute "1" "123456"
        { st := otpDB, log := [] }).2).1 = some Err.ErrInvalidOTPCode ∧
    (ValidateOTP (NewPostgresStore noFault).otps (2 * minute) "1" "123456"
      (ValidateOTP (NewPostgresStore noFault).otps minute "1" "123456"
        { st := otpDB, log := [] }).2).1 ≠ none ∧
    (ValidateOTP (NewPostgresStore noFault).otps (2 * minute) "1" "123456"
      (ValidateOTP (NewPostgresStore noFault).otps minute "1" "123456"
        { st := otpDB, log := [] }).2).2.log =
      [] ++ [Call.GetOtp "1" 123456, Call.MarkOtpAsUsed "1" 123456, Call.GetOtp "1" 123456] := by
  have h := ValidateOTP_twice noFault otpDB [] minute (2 * minute) "1" "123456" 123456 sampleOtp
    (by decide) (by decide) (by decide) (by decide) (by decide)
  exact ⟨h.1, h.2.1 (by decide), h.2.2.1, h.2.2.2⟩

/-- C9 (counterexample): the submitted code `"abc"`: `ValidateOTP` returns the syntax error
of `strconv.Atoi`, which is neither `ErrInvalidOTPCode` nor `ErrOTPExpired`, and calls
nothing on the store. -/
theorem ValidateOTP_non_numeric_code :
    ValidateOTP (NewPostgresStore noFault).otps minute "1" "abc" { st := otpDB, log := [] } =
      (some (Err.atoiSyntax "abc"), { st := otpDB, log := [] }) ∧
    Err.atoiSyntax "abc" ≠ Err.ErrInvalidOTPCode ∧
    Err.atoiSyntax "abc" ≠ Err.ErrOTPExpired := by
  decide

/-- C9 (amended): every error returned by `ValidateOTP` is `ErrInvalidOTPCode`,
`ErrOTPExpired`, the error of `strconv.Atoi` on the submitted code, or the error of the
store's `MarkOtpAsUsed` call wrapped as `failed to mark OTP as used`. -/
theorem ValidateOTP_errors {σ : Type} (store : OtpStore σ) (now : Time)
    (userId code : String) (w : World σ) (err : Err)
    (herr : (ValidateOTP store now userId code w).1 = some err) :
    err = Err.ErrInvalidOTPCode ∨ err = Err.ErrOTPExpired ∨ Atoi code = Except.error err ∨
    ∃ intcode e, Atoi code = Except.ok intcode ∧
      (store.MarkOtpAsUsed userId intcode (store.GetOtp userId intcode w.st).2).1 = some e ∧
      err = Err.wrapped "failed to mark OTP as used" e := by
  cases hnum : Atoi code with
  | error e0 =>
    right; right; left
    unfold ValidateOTP at herr
    simp only [hnum] at herr
    rw [Option.some.inj herr]
  | ok intcode =>
    cases hget : (store.GetOtp userId intcode w.st).1 with
    | error e1 =>
      rw [ValidateOTP_not_found store now userId code intcode w e1 hnum hget] at herr
      left; exact (Option.some.inj herr).symm
    | ok otp =>
      by_cases hold : now - otp.CreatedAt > 5 * minute
      · rw [ValidateOTP_old store now userId code intcode w otp hnum hget hold] at herr
        right; left; exact (Option.some.inj herr).symm
      · cases hused : otp.Used with
        | true =>
          rw [ValidateOTP_used store now userId code intcode w otp hnum hget hold hused] at herr
          left; exact (Option.some.inj herr).symm
        | false =>
          rw [ValidateOTP_unused store now userId code intcode w otp hnum hget hold hused] at herr
          right; right; right
          cases hm : (store.MarkOtpAsUsed userId intcode
              (store.GetOtp userId intcode w.st).2).1 with
          | none => simp [hm] at herr
          | some e =>
            simp only [hm, Option.map_some'] at herr
            exact ⟨intcode, e, rfl, hm, (Option.some.inj herr).symm⟩

/-- C9 (witness): the amended statement at the wrapped store error of a database whose
update statement fails. -/
theorem ValidateOTP_errors_witness :
    Err.wrapped "failed to mark OTP as used" (Err.other "driver: bad connection") =
        Err.ErrInvalidOTPCode ∨
    Err.wrapped "failed to mark OTP as used" (Err.other "driver: bad connection") =
        Err.ErrOTPExpired ∨
    Atoi "123456" = Except.error
      (Err.wrapped "failed to mark OTP as used" (Err.other "driver: bad connection")) ∨
    ∃ intcode e, Atoi "123456" = Except.ok intcode ∧
      ((NewPostgresStore markFails).otps.MarkOtpAsUsed "1" intcode
        ((NewPostgresStore markFails).otps.GetOtp "1" intcode
          (World.mk otpDB []).st).2).1 = some e ∧
      Err.wrapped "failed to mark OTP as used" (Err.other "driver: bad connection") =
        Err.wrapped "failed to mark OTP as used" e :=
  ValidateOTP_errors (NewPostgresStore markFails).otps minute "1" "123456"
    { st := otpDB, log := [] }
    (Err.wrapped "failed to mark OTP as used" (Err.other "driver: bad connection")) (by decide)

/-! ## Theorems: code generation -/

/-- C10 (the code at the failing input): `generateSecureOTP(6)` when the first draw succeeds
and the draw of loop iteration 1 fails: the function returns `(0, nil)`, a success whose
code `0` is outside `[100000, 999999]`. -/
theorem generateSecureOTP_failed_draw_returns_zero :
    generateSecureOTP (Except.ok 0) secondDrawFails 6 = (0, none) ∧
    ¬ ((100000 : Int) ≤ (generateSecureOTP (Except.ok 0) secondDrawFails 6).1 ∧
      (generateSecureOTP (Except.ok 0) secondDrawFails 6).1 ≤ 999999) := by
  decide

/-- For a length outside `1..9`, `generateSecureOTP` returns code 0 and an error, without
drawing. -/
theorem generateSecureOTP_bad_length (first : Except Err (Fin 9))
    (rest : Nat → Except Err (Fin 10)) (length : Int) (h : length ≤ 0 ∨ length > 9) :
    generateSecureOTP first rest length =
      (0, some (Err.other "length should be between 0 to 9 include")) := by
  unfold generateSecureOTP
  rw [if_pos h]

/-- The decimal text of a digit below ten is one digit character carrying that value. -/
theorem digit_toString (d : Fin 10) :
    (toString d.val).toList = [Char.ofNat (48 + d.val)] ∧
    (Char.ofNat (48 + d.val)).isDigit = true ∧
    (Char.ofNat (48 + d.val)).toNat - 48 = d.val := by
  revert d; decide

/-- A digit character is worth at most nine. -/
theorem isDigit_value_le (c : Char) (h : c.isDigit = true) : c.toNat - 48 ≤ 9 := by
  simp only [Char.isDigit, Bool.and_eq_true, decide_eq_true_eq] at h
  have h2 : c.val.toNat ≤ 57 := by
    have := h.2
    exact this
  simp only [Char.toNat]
  omega

/-- Appending one digit multiplies the value by ten and adds the digit. -/
theorem digitsValue_snoc (l : List Char) (c : Char) :
    digitsValue (l ++ [c]) = 10 * digitsValue l + (c.toNat - 48) := by
  simp [digitsValue, List.foldl_append]

/-- Appending `k` digits to a run worth `v` gives a value in `[v * 10^k, (v + 1) * 10^k)`. -/
theorem digitsValue_append_bounds (ds l : List Char) (hds : ∀ c ∈ ds, c.isDigit = true) :
    digitsValue l * 10 ^ ds.length ≤ digitsValue (l ++ ds) ∧
    digitsValue (l ++ ds) < (digitsValue l + 1) * 10 ^ ds.length := by
  induction ds generalizing l with
  | nil => simp
  | cons c t ih =>
    have hc := isDigit_value_le c (hds c (List.mem_cons_self _ _))
    have ht : ∀ x ∈ t, x.isDigit = true := fun x hx => hds x (List.mem_cons_of_mem _ hx)
    have h := ih (l ++ [c]) ht
    rw [digitsValue_snoc, List.append_assoc] at h
    simp only [List.singleton_append] at h
    simp only [List.length_cons, pow_succ]
    constructor
    · calc digitsValue l * (10 ^ t.length * 10) = (10 * digitsValue l) * 10 ^ t.length := by ring
        _ ≤ (10 * digitsValue l + (c.toNat - 48)) * 10 ^ t.length :=
            Nat.mul_le_mul_right _ (Nat.le_add_right _ _)
        _ ≤ _ := h.1
    · calc digitsValue (l ++ c :: t) < (10 * digitsValue l + (c.toNat - 48) + 1) * 10 ^ t.length := h.2
        _ ≤ (10 * digitsValue l + 10) * 10 ^ t.length :=
            Nat.mul_le_mul_right _ (by omega)
        _ = (digitsValue l + 1) * (10 ^ t.length * 10) := by ring

/-- The digit loop either stops at a failed draw, or appends one digit character per
iteration. -/
theorem otpLoop_outcome (rest : Nat → Except Err (Fin 10)) :
    ∀ (n i : Nat) (acc : String),
      (otpLoop rest n i acc = none ∧ ∃ j, i ≤ j ∧ j < i + n ∧ ∃ e, rest j = Except.error e) ∨
      ∃ ds : List Char, (otpLoop rest n i acc).map String.toList = some (acc.toList ++ ds) ∧
        ds.length = n ∧ ∀ c ∈ ds, c.isDigit = true := by
  intro n
  induction n with
  | zero =>
    intro i acc
    exact Or.inr ⟨[], by simp [otpLoop], rfl, by simp⟩
  | succ n ih =>
    intro i acc
    cases hi : rest i with
    | error e =>
      exact Or.inl ⟨by simp [otpLoop, hi], i, le_refl _, by omega, e, hi⟩
    | ok d =>
      have hd := digit_toString d
      have hd1 : (toString d.val).data = [Char.ofNat (48 + d.val)] := hd.1
      rcases ih (i + 1) (acc ++ toString d.val) with ⟨hnone, j, hj1, hj2, e, he⟩ | ⟨ds, hds, hlen, hall⟩
      · exact Or.inl ⟨by simp [otpLoop, hi, hnone], j, by omega, by omega, e, he⟩
      · refine Or.inr ⟨Char.ofNat (48 + d.val) :: ds, ?_, by simp [hlen], ?_⟩
        · simp only [otpLoop, hi]
          rw [hds]
          simp [hd1]
        · intro c hc
          rcases List.mem_cons.mp hc with hc | hc
          · rw [hc]; exact hd.2.1
          · exact hall c hc

/-- On a non-empty run of digits below `2^63`, `Atoi` returns its value. -/
theorem Atoi_digits (s : String) (c : Char) (t : List Char) (hs : s.toList = c :: t)
    (hall : ∀ x ∈ c :: t, x.isDigit = true) (hsmall : digitsValue (c :: t) < 2 ^ 63) :
    Atoi s = Except.ok (digitsValue (c :: t) : Int) := by
  have hc : c.isDigit = true := hall c (List.mem_cons_self _ _)
  have hminus : c ≠ '-' := by
    intro h; rw [h] at hc; exact absurd hc (by decide)
  have hplus : c ≠ '+' := by
    intro h; rw [h] at hc; exact absurd hc (by decide)
  unfold Atoi
  rw [hs]
  have hbody : splitSign (c :: t) = (false, c :: t) := by
    unfold splitSign
    split
    · rename_i h; exact absurd (List.cons.inj h).1 hminus
    · rename_i h; exact absurd (List.cons.inj h).1 hplus
    · rfl
  simp only [hbody]
  have hall2 : (c :: t).all Char.isDigit = true := List.all_eq_true.mpr hall
  simp only [hall2, List.isEmpty_cons, Bool.not_true, Bool.or_self, Bool.false_eq_true, if_false]
  have h1 : ¬ ((digitsValue (c :: t) : Int) < -(2 ^ 63) ∨ (digitsValue (c :: t) : Int) > 2 ^ 63 - 1) := by
    have : (digitsValue (c :: t) : Int) < 2 ^ 63 := by exact_mod_cast hsmall
    omega
  simp only [h1, if_false]

/-- The three outcomes of `generateSecureOTP` for a length in `1..9`: the first draw fails
and its error is returned; a draw of the loop fails and `(0, nil)` is returned; or every
draw succeeds and the code lies in `[10^(length-1), 10^length - 1]`. -/
theorem generateSecureOTP_outcomes (first : Except Err (Fin 9)) (rest : Nat → Except Err (Fin 10))
    (length : Int) (h1 : 1 ≤ length) (h9 : length ≤ 9) :
    (∃ e, first = Except.error e ∧ generateSecureOTP first rest length = (0, some e)) ∨
    (generateSecureOTP first rest length = (0, none) ∧
      ∃ j : Nat, 1 ≤ j ∧ (j : Int) < length ∧ ∃ e, rest j = Except.error e) ∨
    ((generateSecureOTP first rest length).2 = none ∧
      (10 : Int) ^ (length - 1).toNat ≤ (generateSecureOTP first rest length).1 ∧
      (generateSecureOTP first rest length).1 ≤ 10 ^ length.toNat - 1) := by
  have hlen : ¬ (length ≤ 0 ∨ length > 9) := by omega
  unfold generateSecureOTP
  simp only [if_neg hlen]
  cases first with
  | error e => exact Or.inl ⟨e, rfl, rfl⟩
  | ok firstDigit =>
    right
    simp only []
    have hf := digit_toString ⟨firstDigit.val + 1, by omega⟩
    simp only [] at hf
    rcases otpLoop_outcome rest (length - 1).toNat 1 (toString (firstDigit.val + 1)) with
      ⟨hnone, j, hj1, hj2, e, he⟩ | ⟨ds, hds, hdlen, hall⟩
    · left
      rw [hnone]
      exact ⟨rfl, j, hj1, by omega, e, he⟩
    · right
      obtain ⟨out, hout, houtl⟩ := Option.map_eq_some'.mp hds
      rw [hout]
      simp only []
      have hf1 : (toString (firstDigit.val + 1)).toList = [Char.ofNat (48 + (firstDigit.val + 1))] := hf.1
      rw [hf1] at houtl
      have hall2 : ∀ x ∈ Char.ofNat (48 + (firstDigit.val + 1)) :: ds, x.isDigit = true := by
        intro x hx
        rcases List.mem_cons.mp hx with hx | hx
        · rw [hx]; exact hf.2.1
        · exact hall x hx
      have hb := digitsValue_append_bounds ds [Char.ofNat (48 + (firstDigit.val + 1))] hall
      have hv0 : digitsValue [Char.ofNat (48 + (firstDigit.val + 1))] = firstDigit.val + 1 := by
        simp only [digitsValue, List.foldl_cons, List.foldl_nil]
        have := hf.2.2
        omega
      rw [hv0, hdlen] at hb
      simp only [List.singleton_append] at hb houtl
      obtain ⟨n, hn⟩ : ∃ n : Nat, (length - 1).toNat = n := ⟨_, rfl⟩
      have hn1 : length.toNat = n + 1 := by omega
      have hn8 : n ≤ 8 := by omega
      rw [hn] at hb
      rw [hn, hn1]
      have hlo : 10 ^ n ≤ digitsValue (Char.ofNat (48 + (firstDigit.val + 1)) :: ds) :=
        le_trans (Nat.le_mul_of_pos_left _ (by omega)) hb.1
      have hhi : digitsValue (Char.ofNat (48 + (firstDigit.val + 1)) :: ds) < 10 ^ (n + 1) := by
        calc _ < (firstDigit.val + 1 + 1) * 10 ^ n := hb.2
          _ ≤ 10 * 10 ^ n := Nat.mul_le_mul_right _ (by omega)
          _ = 10 ^ (n + 1) := by ring
      have hsmall : digitsValue (Char.ofNat (48 + (firstDigit.val + 1)) :: ds) < 2 ^ 63 := by
        have : 10 ^ (n + 1) ≤ 10 ^ 9 := Nat.pow_le_pow_right (by decide) (by omega)
        have h10 : (10 : Nat) ^ 9 < 2 ^ 63 := by decide
        omega
      rw [Atoi_digits out _ ds houtl hall2 hsmall]
      refine ⟨rfl, ?_, ?_⟩
      · show (10 : Int) ^ n ≤ (digitsValue (Char.ofNat (48 + (firstDigit.val + 1)) :: ds) : Int)
        exact_mod_cast hlo
      · show (digitsValue (Char.ofNat (48 + (firstDigit.val + 1)) :: ds) : Int) ≤ 10 ^ (n + 1) - 1
        have : (digitsValue (Char.ofNat (48 + (firstDigit.val + 1)) :: ds) : Int) < 10 ^ (n + 1) := by
          exact_mod_cast hhi
        omega

/-! ## Theorems: issuing and submitting a one-time code -/

/-- When the first draw fails, `CreateOTP` returns `ErrOTPGenerationFailed`, calls nothing
on the store and sends no email. -/
theorem CreateOTP_first_draw_fails {σ : Type} (store : OtpStore σ) (e : Err)
    (rest : Nat → Except Err (Fin 10)) (send : String → SendEmailRequest → Option Err)
    (now : Time) (id api : String) (w : World σ) :
    CreateOTP store (Except.error e) rest send now id api w =
      ((some Err.ErrOTPGenerationFailed, w), []) := by
  have h : generateSecureOTP (Except.error e) rest 6 = (0, some e) := by
    simp [generateSecureOTP]
  simp [CreateOTP, h]

/-- C11 (the code at the failing input): the first draw succeeds and the draw of loop
iteration 1 fails. `generateSecureOTP(6)` returns `(0, nil)`, so `CreateOTP` persists an
`Otp` with code 0, hands an email to the mail client and returns `nil` instead of
`ErrOTPGenerationFailed`. -/
theorem CreateOTP_failed_later_draw :
    secondDrawFails 1 = Except.error (Err.other "unexpected EOF") ∧
    generateSecureOTP (Except.ok 0) secondDrawFails 6 = (0, none) ∧
    CreateOTP (NewPostgresStore noFault).otps (Except.ok 0) secondDrawFails sendOk 104 "1" "key"
        { st := sampleDB, log := [] } =
      ((none, { st := { sampleDB with otps := [zeroOtp] }, log := [Call.CreateOtp zeroOtp] }),
        [{ From := "", To := [""], Subject := "", Text := "your code is%!(EXTRA int=0)" }]) := by
  decide

/-- The only errors of `Atoi` are its syntax error and its range error. -/
theorem Atoi_error (s : String) (e : Err) (h : Atoi s = Except.error e) :
    e = Err.atoiSyntax s ∨ e = Err.atoiRange s := by
  unfold Atoi at h
  simp only [] at h
  repeat' split at h
  all_goals first
    | (left; exact (Except.error.inj h).symm)
    | (right; exact (Except.error.inj h).symm)
    | exact Except.noConfusion h

/-- C12 (counterexample): the submitted code `"+12345"` is 6 bytes long but is not six
decimal digits; `PostVerifyOTP` lets it through to `ValidateOTP`, which calls `GetOtp`. -/
theorem PostVerifyOTP_signed_code_reaches_store :
    "+12345".utf8ByteSize = 6 ∧
    "+12345".toList.all Char.isDigit = false ∧
    (PostVerifyOTP sampleEnv (NewPostgresStore noFault) (verifyRequest "+12345")
      (freshExchange otpDB)).world.log = [Call.GetOtp "1" 12345] := by
  decide

/-- C12 (amended): a submitted code whose byte length is not 6 gets 422 from
`PostVerifyOTP` itself, and a 6-byte code that `strconv.Atoi` rejects gets 500, in both
cases with the store untouched and no call made on it; a 6-byte code that `Atoi` accepts
reaches the store: `GetOtp` is called with its value. -/
theorem PostVerifyOTP_store_access {σ : Type} (env : Env) (store : AuthStore σ) (r : Request)
    (ex : Exchange σ) :
    ((r.FormValue "code").utf8ByteSize ≠ 6 →
      PostVerifyOTP env store r ex = unprocessable ex) ∧
    (∀ u e, (r.FormValue "code").utf8ByteSize = 6 → contextUser r = some u →
      Atoi (r.FormValue "code") = Except.error e →
      PostVerifyOTP env store r ex = internal ex) ∧
    (∀ u intcode, (r.FormValue "code").utf8ByteSize = 6 → contextUser r = some u →
      Atoi (r.FormValue "code") = Except.ok intcode →
      ∃ later, (PostVerifyOTP env store r ex).world.log =
        ex.world.log ++ Call.GetOtp u.ID intcode :: later) := by
  refine ⟨?_, ?_, ?_⟩
  · intro hlen
    unfold PostVerifyOTP
    simp [hlen]
  · intro u e hlen hu hatoi
    have hne : r.FormValue "code" ≠ "" := by
      intro h; rw [h] at hlen; exact absurd hlen (by decide)
    unfold PostVerifyOTP
    simp only [hlen, hne, hu, ne_eq, not_true_eq_false, or_self, if_false]
    have hval : ValidateOTP store.otps env.clock.since u.ID (r.FormValue "code") ex.world =
        (some e, ex.world) := by
      simp [ValidateOTP, hatoi]
    rw [hval]
    rcases Atoi_error _ _ hatoi with he | he <;> simp [he]
  · intro u intcode hlen hu hatoi
    have hne : r.FormValue "code" ≠ "" := by
      intro h; rw [h] at hlen; exact absurd hlen (by decide)
    unfold PostVerifyOTP
    simp only [hlen, hne, hu, ne_eq, not_true_eq_false, or_self, if_false]
    have hlog : ∃ later, (ValidateOTP store.otps env.clock.since u.ID (r.FormValue "code")
        ex.world).2.log = ex.world.log ++ Call.GetOtp u.ID intcode :: later := by
      cases hget : (store.otps.GetOtp u.ID intcode ex.world.st).1 with
      | error e1 =>
        rw [ValidateOTP_not_found _ _ _ _ intcode _ e1 hatoi hget]
        exact ⟨[], rfl⟩
      | ok otp =>
        by_cases hold : env.clock.since - otp.CreatedAt > 5 * minute
        · rw [ValidateOTP_old _ _ _ _ intcode _ otp hatoi hget hold]
          exact ⟨[], rfl⟩
        · cases hused : otp.Used with
          | true =>
            rw [ValidateOTP_used _ _ _ _ intcode _ otp hatoi hget hold hused]
            exact ⟨[], rfl⟩
          | false =>
            rw [ValidateOTP_unused _ _ _ _ intcode _ otp hatoi hget hold hused]
            exact ⟨[Call.MarkOtpAsUsed u.ID intcode], rfl⟩
    obtain ⟨later, hlater⟩ := hlog
    generalize hv : ValidateOTP store.otps env.clock.since u.ID (r.FormValue "code") ex.world = res
      at hlater
    obtain ⟨res1, res2⟩ := res
    simp only at hlater
    cases res1 with
    | none =>
      simp only [World.call]
      cases hm : (store.users.UpdateVerify u.ID true res2.st).1 with
      | some e2 =>
        exact ⟨later ++ [Call.UpdateVerify u.ID true], by simp [internal, Exchange.write, hlater]⟩
      | none =>
        exact ⟨later ++ [Call.UpdateVerify u.ID true], by simp [Exchange.write, hlater]⟩
    | some err =>
      simp only []
      split
      · exact ⟨later, by simp [unprocessable, Exchange.write, hlater]⟩
      · split
        · exact ⟨later, by simp [Exchange.write, hlater]⟩
        · exact ⟨later, by simp [internal, Exchange.write, hlater]⟩

/-- C12 (witness): a 5-byte code, a 6-byte code `Atoi` rejects, and the signed 6-byte code
`"+12345"`. -/
theorem PostVerifyOTP_store_access_witness :
    PostVerifyOTP sampleEnv (NewPostgresStore noFault) (verifyRequest "12345")
        (freshExchange otpDB) = unprocessable (freshExchange otpDB) ∧
    PostVerifyOTP sampleEnv (NewPostgresStore noFault) (verifyRequest "abcdef")
        (freshExchange otpDB) = internal (freshExchange otpDB) ∧
    ∃ later, (PostVerifyOTP sampleEnv (NewPostgresStore noFault) (verifyRequest "+12345")
        (freshExchange otpDB)).world.log =
      (freshExchange otpDB).world.log ++ Call.GetOtp sampleUser.ID 12345 :: later :=
  ⟨(PostVerifyOTP_store_access sampleEnv (NewPostgresStore noFault) (verifyRequest "12345")
      (freshExchange otpDB)).1 (by decide),
   (PostVerifyOTP_store_access sampleEnv (NewPostgresStore noFault) (verifyRequest "abcdef")
      (freshExchange otpDB)).2.1 sampleUser (Err.atoiSyntax "abcdef") (by decide) (by decide)
      (by decide),
   (PostVerifyOTP_store_access sampleEnv (NewPostgresStore noFault) (verifyRequest "+12345")
      (freshExchange otpDB)).2.2 sampleUser 12345 (by decide) (by decide) (by decide)⟩

/-! ## Theorems: login outcomes -/

/-- C13 (counterexample): a well-formed email nobody registered and a password of valid
length: the store reports `sql.ErrNoRows` and `LoginUser` returns that very error, not
`ErrInvalidCredentials`. -/
theorem LoginUser_unknown_email :
    ValidateUserInput sampleLib (credentials "nobody@example.com" "password1") = none ∧
    (PostgresStore.GetUserByEmail noFault "nobody@example.com" sampleDB).1 =
      Except.error Err.sqlErrNoRows ∧
    (LoginUser sampleLib (NewPostgresStore noFault) (credentials "nobody@example.com" "password1")
      { st := sampleDB, log := [] }).1 = Except.error Err.sqlErrNoRows ∧
    Err.sqlErrNoRows ≠ Err.ErrInvalidCredentials := by
  decide

/-- The outcome of `LoginUser` when the input is valid and the lookup fails: the store's
error, unchanged. -/
theorem LoginUser_lookup_error {σ : Type} (lib : Lib) (s : AuthStore σ) (u : User) (w : World σ)
    (e : Err) (hvalid : ValidateUserInput lib u = none)
    (hget : (s.users.GetUserByEmail u.Email w.st).1 = Except.error e) :
    LoginUser lib s u w =
      (Except.error e,
        { st := (s.users.GetUserByEmail u.Email w.st).2,
          log := w.log ++ [Call.GetUserByEmail u.Email] }) := by
  unfold LoginUser
  simp only [hvalid, World.call, hget]

/-- C13 (amended): for a well-formed email and a password of valid length, when the
store's `GetUserByEmail` reports `sql.ErrNoRows`, `LoginUser` returns `sql.ErrNoRows`
itself; it is `PostLogin` that treats it like `ErrInvalidCredentials`, answering 401. -/
theorem LoginUser_not_found {σ : Type} (env : Env) (store : AuthStore σ) (r : Request)
    (ex : Exchange σ)
    (hvalid : ValidateUserInput env.lib
      (credentials (tolowerall env (r.FormValue "email")) (r.FormValue "password")) = none)
    (hget : (store.users.GetUserByEmail (tolowerall env (r.FormValue "email")) ex.world.st).1 =
      Except.error Err.sqlErrNoRows) :
    (LoginUser env.lib store
      (credentials (tolowerall env (r.FormValue "email")) (r.FormValue "password")) ex.world).1 =
      Except.error Err.sqlErrNoRows ∧
    PostLogin env store r ex =
      unauthorized { ex with world :=
        { st := (store.users.GetUserByEmail (tolowerall env (r.FormValue "email")) ex.world.st).2,
          log := ex.world.log ++ [Call.GetUserByEmail (tolowerall env (r.FormValue "email"))] } } := by
  have hlogin := LoginUser_lookup_error env.lib store
    (credentials (tolowerall env (r.FormValue "email")) (r.FormValue "password")) ex.world
    Err.sqlErrNoRows hvalid hget
  refine ⟨by rw [hlogin], ?_⟩
  unfold PostLogin
  simp only [hlogin]
  simp [credentials]

/-- C13 (witness): the login form of an unregistered address on `sampleDB`. -/
theorem LoginUser_not_found_witness :
    (LoginUser sampleEnv.lib (NewPostgresStore noFault)
      (credentials
        (tolowerall sampleEnv ((loginRequest "Nobody@Example.com" "password1").FormValue "email"))
        ((loginRequest "Nobody@Example.com" "password1").FormValue "password"))
      (freshExchange sampleDB).world).1 = Except.error Err.sqlErrNoRows ∧
    PostLogin sampleEnv (NewPostgresStore noFault) (loginRequest "Nobody@Example.com" "password1")
        (freshExchange sampleDB) =
      unauthorized { freshExchange sampleDB with world :=
        { st := ((NewPostgresStore noFault).users.GetUserByEmail
            (tolowerall sampleEnv
              ((loginRequest "Nobody@Example.com" "password1").FormValue "email"))
            (freshExchange sampleDB).world.st).2,
          log := (freshExchange sampleDB).world.log ++
            [Call.GetUserByEmail (tolowerall sampleEnv
              ((loginRequest "Nobody@Example.com" "password1").FormValue "email"))] } } :=
  LoginUser_not_found sampleEnv (NewPostgresStore noFault)
    (loginRequest "Nobody@Example.com" "password1") (freshExchange sampleDB)
    (by decide) (by decide)

/-- A successful `LoginUser` hands back exactly the record `GetUserByEmail` returned, the
one whose `PasswordHash` passed `CheckPassword`. -/
theorem LoginUser_ok_is_lookup_result {σ : Type} (lib : Lib) (s : AuthStore σ) (u existing : User)
    (w : World σ) (hok : (LoginUser lib s u w).1 = Except.ok existing) :
    (s.users.GetUserByEmail u.Email w.st).1 = Except.ok existing ∧
    CheckPassword lib existing.PasswordHash u.PasswordHash = none := by
  unfold LoginUser at hok
  cases hv : ValidateUserInput lib u with
  | some e => simp [hv] at hok
  | none =>
    simp only [hv, World.call] at hok
    cases hg : (s.users.GetUserByEmail u.Email w.st).1 with
    | error e => simp [hg] at hok
    | ok found =>
      simp only [hg] at hok
      cases hc : CheckPassword lib found.PasswordHash u.PasswordHash with
      | some e => simp [hc] at hok
      | none =>
        simp only [hc] at hok
        have hfound : found = existing := Except.ok.inj hok
        rw [← hfound]
        exact ⟨rfl, hc⟩

/-- C14 (the code at the failing input): logging in as `sampleUser` with the right
password on `PostgresStore`: `LoginUser` succeeds and the record it returns still carries
the stored password hash. -/
theorem LoginUser_returns_stored_hash :
    (LoginUser sampleLib (NewPostgresStore noFault) (credentials "foo@example.com" "password1")
      { st := sampleDB, log := [] }).1 = Except.ok sampleUser ∧
    sampleUser.PasswordHash = "$2a$password1" ∧
    sampleUser.PasswordHash ≠ "" := by
  decide

/-- C15: on `PostgresStore`, for a well-formed email and a password of 8 to 72 bytes, when
the lookup reports the email unused (`sql.ErrNoRows`), hashing succeeds and the insert
succeeds, `RegisterUser` succeeds with the record the insert returned, whose `PasswordHash`
is empty and whose email is the submitted one; the stored row carries the hash. -/
theorem RegisterUser_fresh_email (lib : Lib) (fault : Fault) (db : DB) (log : List Call)
    (user created : User) (h : String)
    (hemail : ValidateEmail lib user.Email = true)
    (hlen : 8 ≤ user.PasswordHash.utf8ByteSize ∧ user.PasswordHash.utf8ByteSize ≤ 72)
    (hunused : (PostgresStore.GetUserByEmail fault user.Email db).1 =
      Except.error Err.sqlErrNoRows)
    (hhash : lib.HashPassword user.PasswordHash = Except.ok h)
    (hinsert : (PostgresStore.CreateUser fault { user with PasswordHash := h } db).1 =
      Except.ok created) :
    (RegisterUser lib (NewPostgresStore fault) user { st := db, log := log }).1 =
      Except.ok created ∧
    created.PasswordHash = "" ∧
    created.Email = user.Email ∧
    (RegisterUser lib (NewPostgresStore fault) user { st := db, log := log }).2.st.users =
      db.users ++ [insertedUserRow (toString db.nextID) db.now user.Email h] := by
  have hvalid : ValidateUserInput lib user = none := by
    simp [ValidateUserInput, hemail, IsValidPasswordLength, hlen.1, hlen.2]
  have hstate : (PostgresStore.GetUserByEmail fault user.Email db).2 = db := by
    unfold PostgresStore.GetUserByEmail
    cases fault (Call.GetUserByEmail user.Email) with
    | some e => rfl
    | none => cases db.users.find? (fun x => decide (x.Email = user.Email)) <;> rfl
  have hreg : RegisterUser lib (NewPostgresStore fault) user { st := db, log := log } =
      ((PostgresStore.CreateUser fault { user with PasswordHash := h } db).1,
        { st := (PostgresStore.CreateUser fault { user with PasswordHash := h } db).2,
          log := log ++ [Call.GetUserByEmail user.Email] ++
            [Call.CreateUser { user with PasswordHash := h }] }) := by
    unfold RegisterUser
    simp [hvalid, World.call, NewPostgresStore, hunused, hstate, hhash, Err.is]
  rw [hreg]
  unfold PostgresStore.CreateUser at hinsert ⊢
  cases hf : fault (Call.CreateUser { user with PasswordHash := h }) with
  | some e => simp [hf] at hinsert
  | none =>
    simp only [hf] at hinsert ⊢
    by_cases hdup : (db.users.any fun x => decide (x.Email = user.Email)) = true
    · simp [hdup] at hinsert
    · simp only [hdup] at hinsert ⊢
      simp only [Bool.false_eq_true, if_false] at hinsert ⊢
      have hc := Except.ok.inj hinsert
      rw [← hc]
      simp [insertedUserRow]

/-- C15 (witness): registering `"new@example.com"` with `"password1"` on `sampleDB`. -/
theorem RegisterUser_fresh_email_witness :
    (RegisterUser sampleLib (NewPostgresStore noFault) (credentials "new@example.com" "password1")
      { st := sampleDB, log := [] }).1 =
      Except.ok { insertedUserRow "2" 0 "new@example.com" "" with GoogleID := "" } ∧
    ({ insertedUserRow "2" 0 "new@example.com" "" with GoogleID := "" } : User).PasswordHash = "" ∧
    ({ insertedUserRow "2" 0 "new@example.com" "" with GoogleID := "" } : User).Email =
      (credentials "new@example.com" "password1").Email ∧
    (RegisterUser sampleLib (NewPostgresStore noFault) (credentials "new@example.com" "password1")
      { st := sampleDB, log := [] }).2.st.users =
      sampleDB.users ++ [insertedUserRow (toString sampleDB.nextID) sampleDB.now
        (credentials "new@example.com" "password1").Email "$2a$password1"] :=
  RegisterUser_fresh_email sampleLib noFault sampleDB []
    (credentials "new@example.com" "password1")
    { insertedUserRow "2" 0 "new@example.com" "" with GoogleID := "" } "$2a$password1"
    (by decide) (by decide) (by decide) (by decide) (by decide)

/-- C16: `IsValidPasswordLength p` holds exactly when the UTF-8 byte length of `p` is at
least 8 and at most 72, and for a well-formed email `ValidateUserInput` returns
`ErrPasswordTooWeak` exactly when the password's byte length is outside `[8, 72]`. -/
theorem IsValidPasswordLength_iff (lib : Lib) (user : User)
    (hemail : ValidateEmail lib user.Email = true) :
    (∀ p : String, IsValidPasswordLength p = true ↔ 8 ≤ p.utf8ByteSize ∧ p.utf8ByteSize ≤ 72) ∧
    (ValidateUserInput lib user = some Err.ErrPasswordTooWeak ↔
      ¬ (8 ≤ user.PasswordHash.utf8ByteSize ∧ user.PasswordHash.utf8ByteSize ≤ 72)) := by
  have hiff : ∀ p : String,
      IsValidPasswordLength p = true ↔ 8 ≤ p.utf8ByteSize ∧ p.utf8ByteSize ≤ 72 := by
    intro p
    simp [IsValidPasswordLength]
  refine ⟨hiff, ?_⟩
  unfold ValidateUserInput
  simp only [hemail, Bool.not_true, Bool.false_eq_true, if_false]
  by_cases hv : IsValidPasswordLength user.PasswordHash = true
  · have := (hiff _).mp hv
    simp [hv, this]
  · have hn : ¬ (8 ≤ user.PasswordHash.utf8ByteSize ∧ user.PasswordHash.utf8ByteSize ≤ 72) :=
      fun h => hv ((hiff _).mpr h)
    simp only [Bool.not_eq_true] at hv
    simp [hv, hn]

/-- C16 (witness): for the well-formed `"foo@example.com"`, the 5-byte `"short"` is too
weak; and `"ééééé"`, 5 characters but 10 bytes, is accepted: bytes are counted. -/
theorem IsValidPasswordLength_iff_witness :
    (IsValidPasswordLength "ééééé" = true ↔
      8 ≤ "ééééé".utf8ByteSize ∧ "ééééé".utf8ByteSize ≤ 72) ∧
    "ééééé".length = 5 ∧ "ééééé".utf8ByteSize = 10 ∧
    (ValidateUserInput sampleLib (credentials "foo@example.com" "short") =
        some Err.ErrPasswordTooWeak ↔
      ¬ (8 ≤ (credentials "foo@example.com" "short").PasswordHash.utf8ByteSize ∧
        (credentials "foo@example.com" "short").PasswordHash.utf8ByteSize ≤ 72)) := by
  have h := IsValidPasswordLength_iff sampleLib (credentials "foo@example.com" "short")
    (by decide)
  exact ⟨h.1 "ééééé", by decide, by decide, h.2⟩

/-! ## Theorems: the admin gate chain -/

/-- The chain `Use` builds from `AdminMiddleware`: session refresh outermost, then
authentication, the role gate and the verification gate around the final handler. -/
theorem Use_AdminMiddleware {σ : Type} (env : Env) (store : AuthStore σ) (h : Handler σ) :
    Use h (AdminMiddleware env store) =
      sessionRefreshMiddleware env store
        (authMiddleware store (onlyAdminMiddleware (mustBeVerifyMiddleware h))) := rfl

/-- Without a session cookie, or with an empty one, the authentication gate redirects. -/
theorem adminChain_no_cookie {σ : Type} (env : Env) (store : AuthStore σ) (h : Handler σ)
    (r : Request) (ex : Exchange σ)
    (hc : r.SessionCookie = none ∨ r.SessionCookie = some "") :
    Use h (AdminMiddleware env store) r ex =
      (refreshStep env store r ex).write (WriterOp.Redirect "/login" 303) := by
  rw [Use_AdminMiddleware]
  rcases hc with hc | hc <;> simp [sessionRefreshMiddleware, authMiddleware, hc]

/-- When the session lookup fails, the authentication gate logs and redirects. -/
theorem adminChain_session_error {σ : Type} (env : Env) (store : AuthStore σ) (h : Handler σ)
    (r : Request) (ex : Exchange σ) (value : String) (e : Err)
    (hc : r.SessionCookie = some value) (hne : value ≠ "")
    (hs : (authSession store value (refreshStep env store r ex)).1 = Except.error e) :
    Use h (AdminMiddleware env store) r ex =
      ({ refreshStep env store r ex with
          world := (authSession store value (refreshStep env store r ex)).2 }.log
        "ERROR" "failed to get session by hash" (some e)).write
        (WriterOp.Redirect "/login" 303) := by
  rw [Use_AdminMiddleware]
  simp only [authSession, World.call] at hs
  simp [sessionRefreshMiddleware, authMiddleware, hc, hne, authSession, World.call, hs]

/-- When the user lookup fails, the authentication gate logs and redirects. -/
theorem adminChain_user_error {σ : Type} (env : Env) (store : AuthStore σ) (h : Handler σ)
    (r : Request) (ex : Exchange σ) (value : String) (session : Session) (e : Err)
    (hc : r.SessionCookie = some value) (hne : value ≠ "")
    (hs : (authSession store value (refreshStep env store r ex)).1 = Except.ok session)
    (hu : (authUser store value session (refreshStep env store r ex)).1 = Except.error e) :
    Use h (AdminMiddleware env store) r ex =
      ({ refreshStep env store r ex with
          world := (authUser store value session (refreshStep env store r ex)).2 }.log
        "ERROR" "failed to get user by ID" (some e)).write
        (WriterOp.Redirect "/login" 303) := by
  rw [Use_AdminMiddleware]
  simp only [authUser, authSession, World.call] at hs hu
  simp [sessionRefreshMiddleware, authMiddleware, hc, hne, authUser, authSession, World.call,
    hs, hu]

/-- Once both lookups succeeded, the rest of the chain is the role gate and the
verification gate applied to the request carrying the user. -/
theorem adminChain_authenticated {σ : Type} (env : Env) (store : AuthStore σ) (h : Handler σ)
    (r : Request) (ex : Exchange σ) (value : String) (session : Session) (user : User)
    (hc : r.SessionCookie = some value) (hne : value ≠ "")
    (hs : (authSession store value (refreshStep env store r ex)).1 = Except.ok session)
    (hu : (authUser store value session (refreshStep env store r ex)).1 = Except.ok user) :
    Use h (AdminMiddleware env store) r ex =
      onlyAdminMiddleware (mustBeVerifyMiddleware h) { r with ContextUser := some user }
        { refreshStep env store r ex with
          world := (authUser store value session (refreshStep env store r ex)).2 } := by
  rw [Use_AdminMiddleware]
  simp only [authUser, authSession, World.call] at hs hu
  simp [sessionRefreshMiddleware, authMiddleware, hc, hne, authUser, authSession, World.call,
    hs, hu]

/-- A chain whose result does not depend on the final handler never invokes it. -/
theorem not_invoked_of_const {σ : Type} (c : Exchange σ) (F : Handler σ → Exchange σ)
    (hF : ∀ h, F h = c) : ¬ ∃ r' ex', ∀ h' : Handler σ, F h' = h' r' ex' := by
  rintro ⟨r', ex', hall⟩
  have h1 := hall (fun _ _ => { c with panicked := !c.panicked })
  rw [hF] at h1
  have h2 := congrArg Exchange.panicked h1
  simp at h2

/-- C20: the handler `Use(h, AdminMiddleware(store, logger)...)` hands the request, now
carrying the resolved user, to the final handler `h` when the session cookie is present and
non-empty, the session lookup and the user lookup of `authMiddleware` succeed, the user's
role is `"admin"`, and the user is verified or the path is `"/verify"`. In every other case
exactly one gate answers (redirect to `/login`, 403 or 401), no later gate makes a call and
`h` is not invoked; the final handler is invoked exactly in the first case. -/
theorem AdminMiddleware_invokes_final_handler {σ : Type} (env : Env) (store : AuthStore σ)
    (h : Handler σ) (r : Request) (ex : Exchange σ) :
    (∀ value session user, r.SessionCookie = some value → value ≠ "" →
      (authSession store value (refreshStep env store r ex)).1 = Except.ok session →
      (authUser store value session (refreshStep env store r ex)).1 = Except.ok user →
      user.Role = "admin" → (user.Verify = true ∨ r.Path = "/verify") →
      Use h (AdminMiddleware env store) r ex =
        h { r with ContextUser := some user }
          { refreshStep env store r ex with
            world := (authUser store value session (refreshStep env store r ex)).2 }) ∧
    ((r.SessionCookie = none ∨ r.SessionCookie = some "") →
      Use h (AdminMiddleware env store) r ex =
        (refreshStep env store r ex).write (WriterOp.Redirect "/login" 303)) ∧
    (∀ value e, r.SessionCookie = some value → value ≠ "" →
      (authSession store value (refreshStep env store r ex)).1 = Except.error e →
      Use h (AdminMiddleware env store) r ex =
        ({ refreshStep env store r ex with
            world := (authSession store value (refreshStep env store r ex)).2 }.log
          "ERROR" "failed to get session by hash" (some e)).write
          (WriterOp.Redirect "/login" 303)) ∧
    (∀ value session e, r.SessionCookie = some value → value ≠ "" →
      (authSession store value (refreshStep env store r ex)).1 = Except.ok session →
      (authUser store value session (refreshStep env store r ex)).1 = Except.error e →
      Use h (AdminMiddleware env store) r ex =
        ({ refreshStep env store r ex with
            world := (authUser store value session (refreshStep env store r ex)).2 }.log
          "ERROR" "failed to get user by ID" (some e)).write
          (WriterOp.Redirect "/login" 303)) ∧
    (∀ value session user, r.SessionCookie = some value → value ≠ "" →
      (authSession store value (refreshStep env store r ex)).1 = Except.ok session →
      (authUser store value session (refreshStep env store r ex)).1 = Except.ok user →
      user.Role ≠ "admin" →
      Use h (AdminMiddleware env store) r ex =
        { refreshStep env store r ex with
          world := (authUser store value session (refreshStep env store r ex)).2 }.write
          (WriterOp.HttpError "Forbidden" 403)) ∧
    (∀ value session user, r.SessionCookie = some value → value ≠ "" →
      (authSession store value (refreshStep env store r ex)).1 = Except.ok session →
      (authUser store value session (refreshStep env store r ex)).1 = Except.ok user →
      user.Role = "admin" → user.Verify = false → r.Path ≠ "/verify" →
      Use h (AdminMiddleware env store) r ex =
        unauthorized { refreshStep env store r ex with
          world := (authUser store value session (refreshStep env store r ex)).2 }) ∧
    ((∃ r' ex', ∀ h' : Handler σ, Use h' (AdminMiddleware env store) r ex = h' r' ex') ↔
      ∃ value session user, r.SessionCookie = some value ∧ value ≠ "" ∧
        (authSession store value (refreshStep env store r ex)).1 = Except.ok session ∧
        (authUser store value session (refreshStep env store r ex)).1 = Except.ok user ∧
        user.Role = "admin" ∧ (user.Verify = true ∨ r.Path = "/verify")) := by
  have hpass : ∀ (g : Handler σ) value session user, r.SessionCookie = some value → value ≠ "" →
      (authSession store value (refreshStep env store r ex)).1 = Except.ok session →
      (authUser store value session (refreshStep env store r ex)).1 = Except.ok user →
      user.Role = "admin" → (user.Verify = true ∨ r.Path = "/verify") →
      Use g (AdminMiddleware env store) r ex =
        g { r with ContextUser := some user }
          { refreshStep env store r ex with
            world := (authUser store value session (refreshStep env store r ex)).2 } := by
    intro g value session user hc hne hs hu hrole hver
    rw [adminChain_authenticated env store g r ex value session user hc hne hs hu]
    rcases hver with hv | hp
    · simp [onlyAdminMiddleware, mustBeVerifyMiddleware, contextUser, hrole, hv]
    · simp [onlyAdminMiddleware, mustBeVerifyMiddleware, contextUser, hrole, hp]
  have hrole : ∀ (g : Handler σ) value session user, r.SessionCookie = some value → value ≠ "" →
      (authSession store value (refreshStep env store r ex)).1 = Except.ok session →
      (authUser store value session (refreshStep env store r ex)).1 = Except.ok user →
      user.Role ≠ "admin" →
      Use g (AdminMiddleware env store) r ex =
        { refreshStep env store r ex with
          world := (authUser store value session (refreshStep env store r ex)).2 }.write
          (WriterOp.HttpError "Forbidden" 403) := by
    intro g value session user hc hne hs hu hr
    rw [adminChain_authenticated env store g r ex value session user hc hne hs hu]
    simp [onlyAdminMiddleware, contextUser, hr]
  have hverify : ∀ (g : Handler σ) value session user, r.SessionCookie = some value →
      value ≠ "" →
      (authSession store value (refreshStep env store r ex)).1 = Except.ok session →
      (authUser store value session (refreshStep env store r ex)).1 = Except.ok user →
      user.Role = "admin" → user.Verify = false → r.Path ≠ "/verify" →
      Use g (AdminMiddleware env store) r ex =
        unauthorized { refreshStep env store r ex with
          world := (authUser store value session (refreshStep env store r ex)).2 } := by
    intro g value session user hc hne hs hu hr hv hp
    rw [adminChain_authenticated env store g r ex value session user hc hne hs hu]
    simp [onlyAdminMiddleware, mustBeVerifyMiddleware, contextUser, hr, hv, hp]
  refine ⟨hpass h, adminChain_no_cookie env store h r ex,
    fun value e => adminChain_session_error env store h r ex value e,
    fun value session e => adminChain_user_error env store h r ex value session e,
    hrole h, hverify h, ?_⟩
  constructor
  · intro hinv
    by_contra hcond
    -- in every case where the conditions fail the chain ignores the final handler
    cases hc : r.SessionCookie with
    | none =>
      exact not_invoked_of_const _ (fun g => Use g (AdminMiddleware env store) r ex)
        (fun g => adminChain_no_cookie env store g r ex (Or.inl hc)) hinv
    | some value =>
      by_cases hne : value = ""
      · exact not_invoked_of_const _ (fun g => Use g (AdminMiddleware env store) r ex)
          (fun g => adminChain_no_cookie env store g r ex (Or.inr (by rw [hc, hne]))) hinv
      · cases hs : (authSession store value (refreshStep env store r ex)).1 with
        | error e =>
          exact not_invoked_of_const _ (fun g => Use g (AdminMiddleware env store) r ex)
            (fun g => adminChain_session_error env store g r ex value e hc hne hs) hinv
        | ok session =>
          cases hu : (authUser store value session (refreshStep env store r ex)).1 with
          | error e =>
            exact not_invoked_of_const _ (fun g => Use g (AdminMiddleware env store) r ex)
              (fun g => adminChain_user_error env store g r ex value session e hc hne hs hu) hinv
          | ok user =>
            by_cases hr : user.Role = "admin"
            · by_cases hv : user.Verify = true
              · exact hcond ⟨value, session, user, hc, hne, hs, hu, hr, Or.inl hv⟩
              · by_cases hp : r.Path = "/verify"
                · exact hcond ⟨value, session, user, hc, hne, hs, hu, hr, Or.inr hp⟩
                · exact not_invoked_of_const _
                    (fun g => Use g (AdminMiddleware env store) r ex)
                    (fun g => hverify g value session user hc hne hs hu hr
                      (by simpa using hv) hp) hinv
            · exact not_invoked_of_const _ (fun g => Use g (AdminMiddleware env store) r ex)
                (fun g => hrole g value session user hc hne hs hu hr) hinv
  · rintro ⟨value, session, user, hc, hne, hs, hu, hr, hver⟩
    exact ⟨_, _, fun g => hpass g value session user hc hne hs hu hr hver⟩

/-- C20 (witness): on `adminDB`, before the session expires, the dashboard request of the
verified administrator reaches the final handler; a request without a session cookie is
redirected to `/login`. -/
theorem AdminMiddleware_invokes_final_handler_witness :
    Use markHandler (AdminMiddleware earlyEnv (NewPostgresStore noFault)) dashboardRequest
        (freshExchange adminDB) =
      markHandler { dashboardRequest with ContextUser := some adminUserResolved }
        { refreshStep earlyEnv (NewPostgresStore noFault) dashboardRequest (freshExchange adminDB)
          with world := (authUser (NewPostgresStore noFault) "tok" sampleSession
            (refreshStep earlyEnv (NewPostgresStore noFault) dashboardRequest
              (freshExchange adminDB))).2 } ∧
    Use markHandler (AdminMiddleware earlyEnv (NewPostgresStore noFault))
        (loginRequest "admin@admin" "password1") (freshExchange adminDB) =
      (refreshStep earlyEnv (NewPostgresStore noFault) (loginRequest "admin@admin" "password1")
        (freshExchange adminDB)).write (WriterOp.Redirect "/login" 303) :=
  ⟨(AdminMiddleware_invokes_final_handler earlyEnv (NewPostgresStore noFault) markHandler
      dashboardRequest (freshExchange adminDB)).1 "tok"
      { sampleSession with ExpiresAt := some (51 + sessionDuration) } adminUserResolved
      (by decide) (by decide) (by decide) (by decide) (by decide) (Or.inl (by decide)),
   (AdminMiddleware_invokes_final_handler earlyEnv (NewPostgresStore noFault) markHandler
      (loginRequest "admin@admin" "password1") (freshExchange adminDB)).2.1
      (Or.inl (by decide))⟩

/-- C19 (the code at the failing input): the cookie names `sampleSession`, which expired at
100; the clock reads 101 and the database fails the delete. `sessionRefreshMiddleware`
swallows `ErrSessionExpired`, `authMiddleware` finds the undeleted session without looking
at its expiration, the user is a verified administrator, and so the final handler, whatever
it is, is invoked and nothing redirects to the login page. -/
theorem AdminMiddleware_expired_session_delete_fails :
    sampleSession.ExpiresAt = some 100 ∧ (100 : Time) < sampleEnv.clock.validate ∧
    (RefreshSession (NewPostgresStore deleteFails).sessions sampleEnv.clock.validate
      sampleEnv.clock.refresh "tok" (freshExchange adminDB).world).1 =
      some Err.ErrSessionExpired ∧
    (∀ h : Handler DB,
      Use h (AdminMiddleware sampleEnv (NewPostgresStore deleteFails)) dashboardRequest
          (freshExchange adminDB) =
        h { dashboardRequest with ContextUser := some adminUserResolved }
          { freshExchange adminDB with world :=
            { st := adminDB,
              log := [Call.GetByCookieHash "tok", Call.DeleteByCookieHash "tok",
                Call.GetByCookieHash "tok", Call.GetUserByID "1"] } }) ∧
    (Use markHandler (AdminMiddleware sampleEnv (NewPostgresStore deleteFails)) dashboardRequest
      (freshExchange adminDB)).w = [WriterOp.Write "final handler"] := by
  refine ⟨by decide, by decide, by decide, ?_, by decide⟩
  intro h
  rfl

/-- When the delete is executed, the same expired session is gone before `authMiddleware`
looks it up, and the chain ends in the redirect to `/login` whatever the final handler. -/
theorem AdminMiddleware_expired_session_deleted (env : Env) (fault : Fault) (h : Handler DB)
    (r : Request) (ex : Exchange DB) (value : String) (session : Session) (expiresAt : Time)
    (hc : r.SessionCookie = some value) (hne : value ≠ "")
    (hget : (PostgresStore.GetByCookieHash fault value ex.world.st).1 = Except.ok session)
    (hE : session.ExpiresAt = some expiresAt) (hlt : expiresAt < env.clock.validate)
    (hdel : fault (Call.DeleteByCookieHash value) = none) :
    Use h (AdminMiddleware env (NewPostgresStore fault)) r ex =
      ({ ex with world :=
          { st := { ex.world.st with sessions :=
              ex.world.st.sessions.filter (fun s => !decide (s.Token = value)) },
            log := ex.world.log ++ [Call.GetByCookieHash value, Call.DeleteByCookieHash value,
              Call.GetByCookieHash value] } }.log
        "ERROR" "failed to get session by hash" (some Err.sqlErrNoRows)).write
        (WriterOp.Redirect "/login" 303) := by
  have hst := PostgresStore.GetByCookieHash_state fault value ex.world.st
  obtain ⟨hf, _⟩ := PostgresStore.GetByCookieHash_ok fault value ex.world.st session hget
  have hpair : (NewPostgresStore fault).sessions.GetByCookieHash value ex.world.st =
      (Except.ok session, ex.world.st) := Prod.ext hget hst
  have hexp : sessionExpired session env.clock.validate = true := by
    simp [sessionExpired, hE, hlt]
  have hval := ValidateSession_found (NewPostgresStore fault).sessions env.clock.validate value
    ex.world session ex.world.st hpair
  rw [if_pos hexp] at hval
  have hstep : refreshStep env (NewPostgresStore fault) r ex =
      { ex with world :=
        { st := { ex.world.st with sessions :=
            ex.world.st.sessions.filter (fun s => !decide (s.Token = value)) },
          log := ex.world.log ++ [Call.GetByCookieHash value, Call.DeleteByCookieHash value] } } := by
    unfold refreshStep RefreshSession
    simp only [hc, hval]
    simp [NewPostgresStore, PostgresStore.DeleteByCookieHash, hdel]
  have hs : (authSession (NewPostgresStore fault) value
      (refreshStep env (NewPostgresStore fault) r ex)).1 = Except.error Err.sqlErrNoRows := by
    rw [hstep]
    simp only [authSession, World.call, NewPostgresStore, PostgresStore.GetByCookieHash, hf,
      PostgresStore.find_after_delete]
  rw [adminChain_session_error env (NewPostgresStore fault) h r ex value Err.sqlErrNoRows hc hne hs]
  rw [hstep]
  simp only [authSession, World.call, NewPostgresStore, PostgresStore.GetByCookieHash, hf,
    PostgresStore.find_after_delete, Exchange.log, Exchange.write, List.append_assoc,
    List.cons_append, List.nil_append]

/-! ## Theorems: admin login and the verified flag -/

/-- `LoginUser` makes no `UpdateVerify` call. -/
theorem LoginUser_no_UpdateVerify {σ : Type} (lib : Lib) (s : AuthStore σ) (u : User)
    (w : World σ) :
    (LoginUser lib s u w).2.log.filter Call.isUpdateVerify =
      w.log.filter Call.isUpdateVerify := by
  unfold LoginUser
  cases ValidateUserInput lib u with
  | some e => rfl
  | none =>
    simp only [World.call]
    cases (s.users.GetUserByEmail u.Email w.st).1 with
    | error e => simp [List.filter_append, Call.isUpdateVerify]
    | ok existing =>
      simp only []
      cases CheckPassword lib existing.PasswordHash u.PasswordHash <;>
        simp [List.filter_append, Call.isUpdateVerify]

/-- `CreateSession` makes no `UpdateVerify` call. -/
theorem CreateSession_no_UpdateVerify {σ : Type} (ss : SessionStore σ)
    (token : Except Err String) (now : Time) (userID : String) (r : Request) (w : World σ) :
    (CreateSession ss token now userID r w).2.log.filter Call.isUpdateVerify =
      w.log.filter Call.isUpdateVerify := by
  unfold CreateSession
  cases token with
  | error e => rfl
  | ok cookieHash => simp [World.call, List.filter_append, Call.isUpdateVerify]

/-- `CreateOTP` makes no `UpdateVerify` call. -/
theorem CreateOTP_no_UpdateVerify {σ : Type} (store : OtpStore σ) (first : Except Err (Fin 9))
    (rest : Nat → Except Err (Fin 10)) (send : String → SendEmailRequest → Option Err)
    (now : Time) (id api : String) (w : World σ) :
    (CreateOTP store first rest send now id api w).1.2.log.filter Call.isUpdateVerify =
      w.log.filter Call.isUpdateVerify := by
  unfold CreateOTP
  rcases hgen : generateSecureOTP first rest 6 with ⟨code, err⟩
  cases err with
  | some e => rfl
  | none =>
    simp only [World.call]
    cases (store.CreateOtp { Code := code, UserId := id, CreatedAt := now, Used := false } w.st).1 with
    | some e => simp [List.filter_append, Call.isUpdateVerify]
    | none =>
      simp only []
      cases send api { From := "", To := [""], Subject := "", Text := otpMailText code } <;>
        simp [List.filter_append, Call.isUpdateVerify]

/-- C18 (the code at the failing input): the verified administrator of `adminDB` logs in
through `PostAdminLogin` with everything working. The session cookie is set, the code is
issued and the browser is redirected, but no `UpdateVerify` call is made and the stored
user is still verified. A request for the dashboard that carries the new cookie then
passes the four gates of `AdminMiddleware` and reaches the final handler, while the issued
code is still unused and no `UpdateVerify` call was ever made. -/
theorem PostAdminLogin_leaves_user_verified :
    adminLoggedIn.w =
      [WriterOp.SetCookie (loginCookie "tok2"), WriterOp.Redirect "/admin/verify" 303] ∧
    adminLoggedIn.world.log.filter Call.isUpdateVerify = [] ∧
    adminLoggedIn.world.st.users = [adminUser] ∧
    adminUser.Verify = true ∧
    adminLoggedIn.world.st.otps = [issuedOtp] ∧
    issuedOtp.Used = false ∧
    (Use markHandler (AdminMiddleware sampleEnv (NewPostgresStore noFault)) dashboardAfterLogin
      (freshExchange adminLoggedIn.world.st)).w =
      [WriterOp.SetCookie (refreshedCookie "tok2"), WriterOp.Write "final handler"] ∧
    (Use markHandler (AdminMiddleware sampleEnv (NewPostgresStore noFault)) dashboardAfterLogin
      (freshExchange adminLoggedIn.world.st)).world.st.otps = [issuedOtp] ∧
    (Use markHandler (AdminMiddleware sampleEnv (NewPostgresStore noFault)) dashboardAfterLogin
      (freshExchange adminLoggedIn.world.st)).world.log.filter Call.isUpdateVerify = [] := by
  decide

/-- For every store and every request, `PostAdminLogin` never calls `UpdateVerify`,
whatever the outcome of the login: the verified flag is left as it was. The reset the
login lacks is made by `GetVerifyOTP`, the handler of the page `PostAdminLogin` redirects
to: with a user in the request context its one store call is `UpdateVerify(u.ID, false)`. -/
theorem PostAdminLogin_no_UpdateVerify {σ : Type} (env : Env) (store : AuthStore σ)
    (mail : String) (r : Request) (ex : Exchange σ) :
    (PostAdminLogin env store mail r ex).world.log.filter Call.isUpdateVerify =
      ex.world.log.filter Call.isUpdateVerify ∧
    (∀ u, contextUser r = some u →
      (GetVerifyOTP store r ex).world.log = ex.world.log ++ [Call.UpdateVerify u.ID false]) := by
  constructor
  · unfold PostAdminLogin
    simp only []
    have hlogin := LoginUser_no_UpdateVerify env.lib store
      (credentials (tolowerall env (r.FormValue "email")) (r.FormValue "password")) ex.world
    rcases hres : LoginUser env.lib store
      (credentials (tolowerall env (r.FormValue "email")) (r.FormValue "password")) ex.world
      with ⟨res, w1⟩
    rw [hres] at hlogin
    simp only at hlogin
    cases res with
    | error err =>
      simp only []
      split
      · simpa [unprocessable, Exchange.write] using hlogin
      · split
        · simpa [unauthorized, Exchange.write] using hlogin
        · simpa [internal, Exchange.write, Exchange.log] using hlogin
    | ok u =>
      simp only []
      have hsess := CreateSession_no_UpdateVerify store.sessions env.token env.clock.session
        u.ID r w1
      have hotp : ∀ w2 : World σ,
          (CreateOTP store.otps env.first env.rest env.send env.clock.otp u.ID mail
            w2).1.2.log.filter Call.isUpdateVerify = w2.log.filter Call.isUpdateVerify :=
        fun w2 => CreateOTP_no_UpdateVerify store.otps env.first env.rest env.send
          env.clock.otp u.ID mail w2
      cases hcs : (CreateSession store.sessions env.token env.clock.session u.ID r w1).1 with
      | error e =>
        simp only [internal, Exchange.write]
        split <;> simp [Exchange.log, Exchange.write, hotp, hsess, hlogin]
      | ok cookieHash =>
        simp only [Exchange.write]
        split <;> simp [Exchange.log, Exchange.write, hotp, hsess, hlogin]
  · intro u hu
    unfold GetVerifyOTP
    simp only [hu, World.call]
    cases (store.users.UpdateVerify u.ID false ex.world.st).1 <;>
      simp [internal, Exchange.write, Exchange.log]

/-- An instance of `PostAdminLogin_no_UpdateVerify`: the administrator's login on `adminDB`
makes no `UpdateVerify` call, and `GetVerifyOTP` for a request carrying `sampleUser` makes
the call `UpdateVerify("1", false)`. -/
theorem PostAdminLogin_no_UpdateVerify_witness :
    (PostAdminLogin sampleEnv (NewPostgresStore noFault) "key"
      (loginRequest "admin@admin" "password1") (freshExchange adminDB)).world.log.filter
        Call.isUpdateVerify = (freshExchange adminDB).world.log.filter Call.isUpdateVerify ∧
    (GetVerifyOTP (NewPostgresStore noFault) (verifyRequest "") (freshExchange sampleDB)).world.log =
      (freshExchange sampleDB).world.log ++ [Call.UpdateVerify sampleUser.ID false] :=
  ⟨(PostAdminLogin_no_UpdateVerify sampleEnv (NewPostgresStore noFault) "key"
      (loginRequest "admin@admin" "password1") (freshExchange adminDB)).1,
   (PostAdminLogin_no_UpdateVerify sampleEnv (NewPostgresStore noFault) "key"
      (verifyRequest "") (freshExchange sampleDB)).2 sampleUser (by decide)⟩

/-! ## Theorems: the rate limiter -/

/-- A full bucket of rate one per second and burst 10: ten requests at the instant `t`
pass, an eleventh at `t` does not, and of two requests `d` later, with `d` at least one
second and less than two, the first passes and the second does not. -/
theorem Limiter.AllowMany_burst (t d : Time) (hd1 : second ≤ d) (hd2 : d < 2 * second) :
    ((NewLimiter second 10 t).AllowMany (List.replicate 11 t ++ [t + d, t + d])).1 =
      List.replicate 10 true ++ [false, true, false] := by
  simp only [second] at hd1 hd2
  have h1 : ¬ (t + d < t) := by linarith
  have h2 : t + d - t = d := by ring
  have h3 : min (10000000000 : Int) d = d := min_eq_right (by linarith)
  have h4 : (1000000000 : Int) ≤ d := hd1
  have h5 : min (10000000000 : Int) (d - 1000000000) = d - 1000000000 :=
    min_eq_right (by linarith)
  have h6 : ¬ ((1000000000 : Int) ≤ d - 1000000000) := by linarith
  simp [Limiter.AllowMany, Limiter.Allow, NewLimiter, second, List.replicate, h1, h2, h3, h4,
    h5, h6]

/-- The limiter's answer for a key that is in the map at the head, the rest of the map not
holding the key: the bucket is asked and put back in place. -/
theorem allowVisitor_head (interval : Duration) (burst : Int) (ip : String) (now : Time)
    (l : Limiter) (others : List (String × Limiter)) (hothers : ∀ kv ∈ others, kv.1 ≠ ip) :
    allowVisitor interval burst ip now ((ip, l) :: others) =
      ((l.Allow now).1, (ip, (l.Allow now).2) :: others) := by
  have hfilter : others.filter (fun kv => !decide (kv.1 = ip)) = others := by
    rw [List.filter_eq_self]
    intro kv hkv
    simpa using hothers kv hkv
  simp [allowVisitor, List.lookup, hfilter]

/-- The limiter's answer for a key that is not in the map: a new full bucket is asked and
stored. -/
theorem allowVisitor_fresh (interval : Duration) (burst : Int) (ip : String) (now : Time)
    (visitors : List (String × Limiter)) (hfresh : visitors.lookup ip = none) :
    (∀ kv ∈ visitors, kv.1 ≠ ip) ∧
    allowVisitor interval burst ip now visitors =
      (((NewLimiter interval burst now).Allow now).1,
        (ip, ((NewLimiter interval burst now).Allow now).2) :: visitors) := by
  have hno : ∀ kv ∈ visitors, kv.1 ≠ ip := by
    intro kv hkv heq
    induction visitors with
    | nil => cases hkv
    | cons a t ih =>
      obtain ⟨k, v⟩ := a
      simp only [List.lookup] at hfresh
      by_cases hk : ip = k
      · subst hk
        simp at hfresh
      · have hbeq : (ip == k) = false := by simpa using hk
        simp only [hbeq] at hfresh
        rcases List.mem_cons.mp hkv with h | h
        · subst h
          exact hk heq.symm
        · exact ih hfresh h
  have hfilter : visitors.filter (fun kv => !decide (kv.1 = ip)) = visitors := by
    rw [List.filter_eq_self]
    intro kv hkv
    simpa using hno kv hkv
  exact ⟨hno, by simp [allowVisitor, hfresh, hfilter]⟩

/-- With the key's bucket at the head of the map, the decisions for a run of requests of
that key are those of the bucket alone. -/
theorem allowMany_head (interval : Duration) (burst : Int) (ip : String)
    (others : List (String × Limiter)) (hothers : ∀ kv ∈ others, kv.1 ≠ ip) :
    ∀ (times : List Time) (l : Limiter),
      (allowMany interval burst ip times ((ip, l) :: others)).1 = (l.AllowMany times).1 := by
  intro times
  induction times with
  | nil => intro l; rfl
  | cons now later ih =>
    intro l
    simp only [allowMany, Limiter.AllowMany,
      allowVisitor_head interval burst ip now l others hothers, ih]

/-- One more request: the map after `k + 1` requests is the map after `k` requests with
the limiter asked once more, and that answer is entry `k` of the decisions. -/
theorem allowMany_step (interval : Duration) (burst : Int) (ip : String) :
    ∀ (times : List Time) (k : Nat) (now : Time) (visitors : List (String × Limiter)),
      times[k]? = some now →
      (allowMany interval burst ip (times.take (k + 1)) visitors).2 =
        (allowVisitor interval burst ip now
          (allowMany interval burst ip (times.take k) visitors).2).2 ∧
      (allowMany interval burst ip times visitors).1[k]? =
        some (allowVisitor interval burst ip now
          (allowMany interval burst ip (times.take k) visitors).2).1 := by
  intro times
  induction times with
  | nil => intro k now visitors h; simp at h
  | cons t0 later ih =>
    intro k now visitors h
    cases k with
    | zero =>
      simp only [List.getElem?_cons_zero, Option.some.injEq] at h
      subst h
      simp [allowMany]
    | succ k =>
      simp only [List.getElem?_cons_succ] at h
      have := ih k now (allowVisitor interval burst ip t0 visitors).2 h
      simp only [List.take_succ_cons, allowMany, List.getElem?_cons_succ]
      exact this

/-- C17: with the configured limiter (`rate.Every(time.Second)`, burst 10) and a key that
is not in the `visitors` map, of the requests of that key arriving at the times
`burstArrivals t d` (eleven at the instant `t`, two more `d` later, `d` at least one second
and less than two) the first ten are passed, the eleventh is rejected, the twelfth is
passed and the thirteenth rejected; and request number `k` of the run, served by
`rateLimitMiddlewarePerIP` on the map the earlier requests left, is handed to the next
handler when passed and otherwise answered with 429 without the next handler being
invoked. -/
theorem rateLimit_burst_then_refill {σ : Type} (ip : String) (t d : Time)
    (visitors : List (String × Limiter)) (hfresh : visitors.lookup ip = none)
    (hd1 : second ≤ d) (hd2 : d < 2 * second) :
    (allowMany second 10 ip (burstArrivals t d) visitors).1 = burstDecisions ∧
    ∀ (k : Nat) (now : Time) (passed : Bool),
      (burstArrivals t d)[k]? = some now → burstDecisions[k]? = some passed →
      ∀ (env : Env) (next : Handler σ) (r : Request) (ex : Exchange σ),
        env.clock.allow = now → visitorKey r.RemoteAddr = ip →
        ex.visitors = (allowMany second 10 ip ((burstArrivals t d).take k) visitors).2 →
        rateLimitMiddlewarePerIP env second 10 next r ex =
          if passed = true then
            next r { ex with visitors :=
              (allowMany second 10 ip ((burstArrivals t d).take (k + 1)) visitors).2 }
          else
            { ex with visitors :=
              (allowMany second 10 ip ((burstArrivals t d).take (k + 1)) visitors).2 }.write
              (WriterOp.HttpError "Too Many Requests" 429) := by
  have hdec : (allowMany second 10 ip (burstArrivals t d) visitors).1 = burstDecisions := by
    obtain ⟨hno, hfirst⟩ := allowVisitor_fresh second 10 ip t visitors hfresh
    have hburst : ((NewLimiter second 10 t).AllowMany
        (t :: (List.replicate 10 t ++ [t + d, t + d]))).1 = burstDecisions :=
      Limiter.AllowMany_burst t d hd1 hd2
    have harr : burstArrivals t d = t :: (List.replicate 10 t ++ [t + d, t + d]) := rfl
    rw [harr]
    generalize List.replicate 10 t ++ [t + d, t + d] = later at hburst ⊢
    simp only [Limiter.AllowMany] at hburst
    simp only [allowMany, hfirst, allowMany_head second 10 ip visitors hno]
    exact hburst
  refine ⟨hdec, ?_⟩
  intro k now passed hnow hpassed env next r ex hclock hkey hvis
  obtain ⟨hmap, hans⟩ := allowMany_step second 10 ip (burstArrivals t d) k now visitors hnow
  rw [hdec, hpassed] at hans
  have hans2 := (Option.some.inj hans).symm
  unfold rateLimitMiddlewarePerIP
  simp only [hclock, hkey, hvis, hmap, hans2]
  cases passed <;> simp

/-- C17 (witness): key `203.0.113.7`, burst at time 0 on an empty map, `d` one second: the
decisions are as listed, and the eleventh request is answered 429 without reaching
`markHandler`. -/
theorem rateLimit_burst_then_refill_witness :
    (allowMany second 10 "203.0.113.7" (burstArrivals 0 second) []).1 = burstDecisions ∧
    rateLimitMiddlewarePerIP burstEnv second 10 markHandler dashboardRequest
        { freshExchange sampleDB with visitors :=
          (allowMany second 10 "203.0.113.7" ((burstArrivals 0 second).take 10) []).2 } =
      { freshExchange sampleDB with visitors :=
        (allowMany second 10 "203.0.113.7" ((burstArrivals 0 second).take (10 + 1)) []).2 }.write
        (WriterOp.HttpError "Too Many Requests" 429) := by
  have h := @rateLimit_burst_then_refill DB "203.0.113.7" 0 second [] (by decide) (by decide)
    (by decide)
  exact ⟨h.1, h.2 10 0 false (by decide) (by decide) burstEnv markHandler dashboardRequest
    { freshExchange sampleDB with visitors :=
      (allowMany second 10 "203.0.113.7" ((burstArrivals 0 second).take 10) []).2 }
    (by decide) (by decide) rfl⟩

/-- The periodic reset of the background goroutine empties the map: every key is new again
and its next request meets a full bucket. -/
theorem resetVisitors_fresh {σ : Type} (ex : Exchange σ) (ip : String) :
    (resetVisitors ex).visitors.lookup ip = none := rfl

/-! ## Theorems: delivery failure, middleware order, login without a session -/

/-- C21: once a code has been generated, `CreateOTP` persists the unused record with that
code and the clock reading, and then: when the mail client's `Send` fails it returns
`ErrEmailSendFailed` and makes no further store call, so the store is as the insert left
it (on `PostgresStore`: the table with the new record appended); when the insert fails it
returns the store's error and hands no email to the mail client. -/
theorem CreateOTP_send_or_persist_fails {σ : Type} (store : OtpStore σ)
    (first : Except Err (Fin 9)) (rest : Nat → Except Err (Fin 10))
    (send : String → SendEmailRequest → Option Err) (now : Time) (id api : String)
    (w : World σ) (code : Int) (hgen : generateSecureOTP first rest 6 = (code, none)) :
    (∀ e, (store.CreateOtp { Code := code, UserId := id, CreatedAt := now, Used := false }
        w.st).1 = none →
      send api { From := "", To := [""], Subject := "", Text := otpMailText code } = some e →
      CreateOTP store first rest send now id api w =
        ((some Err.ErrEmailSendFailed,
          { st := (store.CreateOtp { Code := code, UserId := id, CreatedAt := now, Used := false }
              w.st).2,
            log := w.log ++
              [Call.CreateOtp { Code := code, UserId := id, CreatedAt := now, Used := false }] }),
          [{ From := "", To := [""], Subject := "", Text := otpMailText code }])) ∧
    (∀ err, (store.CreateOtp { Code := code, UserId := id, CreatedAt := now, Used := false }
        w.st).1 = some err →
      CreateOTP store first rest send now id api w =
        ((some err,
          { st := (store.CreateOtp { Code := code, UserId := id, CreatedAt := now, Used := false }
              w.st).2,
            log := w.log ++
              [Call.CreateOtp { Code := code, UserId := id, CreatedAt := now, Used := false }] }),
          [])) ∧
    (∀ (fault : Fault) (db : DB) (log : List Call) (e : Err),
      fault (Call.CreateOtp { Code := code, UserId := id, CreatedAt := now, Used := false }) =
        none →
      send api { From := "", To := [""], Subject := "", Text := otpMailText code } = some e →
      (CreateOTP (NewPostgresStore fault).otps first rest send now id api
          { st := db, log := log }).1.1 = some Err.ErrEmailSendFailed ∧
      (CreateOTP (NewPostgresStore fault).otps first rest send now id api
          { st := db, log := log }).1.2.st =
        { db with otps :=
          db.otps ++ [{ Code := code, UserId := id, CreatedAt := now, Used := false }] }) := by
  have hfail : ∀ (τ : Type) (st : OtpStore τ) (v : World τ) (e : Err),
      (st.CreateOtp { Code := code, UserId := id, CreatedAt := now, Used := false } v.st).1 =
        none →
      send api { From := "", To := [""], Subject := "", Text := otpMailText code } = some e →
      CreateOTP st first rest send now id api v =
        ((some Err.ErrEmailSendFailed,
          { st := (st.CreateOtp { Code := code, UserId := id, CreatedAt := now, Used := false }
              v.st).2,
            log := v.log ++
              [Call.CreateOtp { Code := code, UserId := id, CreatedAt := now, Used := false }] }),
          [{ From := "", To := [""], Subject := "", Text := otpMailText code }]) := by
    intro τ st v e hstore hsend
    unfold CreateOTP
    simp only [hgen, World.call, hstore, hsend]
  refine ⟨fun e => hfail σ store w e, ?_, ?_⟩
  · intro err hstore
    unfold CreateOTP
    simp only [hgen, World.call, hstore]
  · intro fault db log e hfault hsend
    have hstore : ((NewPostgresStore fault).otps.CreateOtp
        { Code := code, UserId := id, CreatedAt := now, Used := false }
        (World.mk db log).st).1 = none := by
      simp [NewPostgresStore, PostgresStore.CreateOtp, hfault]
    rw [hfail DB (NewPostgresStore fault).otps { st := db, log := log } e hstore hsend]
    simp [NewPostgresStore, PostgresStore.CreateOtp, hfault]

/-- C21 (witness): in `sampleEnv` (code 100000, clock 104) on `sampleDB`: a failing mail
client after a successful insert, and a failing insert. -/
theorem CreateOTP_send_or_persist_fails_witness :
    CreateOTP (NewPostgresStore noFault).otps sampleEnv.first sampleEnv.rest sendFails 104 "1"
        "key" { st := sampleDB, log := [] } =
      ((some Err.ErrEmailSendFailed,
        { st := ((NewPostgresStore noFault).otps.CreateOtp issuedOtp sampleDB).2,
          log := [] ++ [Call.CreateOtp issuedOtp] }), [issuedMail]) ∧
    CreateOTP (NewPostgresStore createOtpFails).otps sampleEnv.first sampleEnv.rest sendOk 104
        "1" "key" { st := sampleDB, log := [] } =
      ((some (Err.other "driver: bad connection"),
        { st := ((NewPostgresStore createOtpFails).otps.CreateOtp issuedOtp sampleDB).2,
          log := [] ++ [Call.CreateOtp issuedOtp] }), []) ∧
    ((CreateOTP (NewPostgresStore noFault).otps sampleEnv.first sampleEnv.rest sendFails 104 "1"
        "key" { st := sampleDB, log := [] }).1.1 = some Err.ErrEmailSendFailed ∧
      (CreateOTP (NewPostgresStore noFault).otps sampleEnv.first sampleEnv.rest sendFails 104 "1"
        "key" { st := sampleDB, log := [] }).1.2.st =
        { sampleDB with otps := sampleDB.otps ++ [issuedOtp] }) :=
  ⟨(CreateOTP_send_or_persist_fails (NewPostgresStore noFault).otps sampleEnv.first
      sampleEnv.rest sendFails 104 "1" "key" { st := sampleDB, log := [] } 100000
      (by decide)).1 (Err.other "resend: request failed") (by decide) (by decide),
   (CreateOTP_send_or_persist_fails (NewPostgresStore createOtpFails).otps sampleEnv.first
      sampleEnv.rest sendOk 104 "1" "key" { st := sampleDB, log := [] } 100000
      (by decide)).2.1 (Err.other "driver: bad connection") (by decide),
   (CreateOTP_send_or_persist_fails (NewPostgresStore noFault).otps sampleEnv.first
      sampleEnv.rest sendFails 104 "1" "key" { st := sampleDB, log := [] } 100000
      (by decide)).2.2 noFault sampleDB [] (Err.other "resend: request failed") (by decide)
      (by decide)⟩

/-- The loop of `Use` unrolled by one middleware: the first listed one wraps the chain of
the others. -/
theorem Use_cons {σ : Type} (h : Handler σ) (m : middleware σ) (ms : List (middleware σ)) :
    Use h (m :: ms) = m (Use h ms) := by
  simp [Use, List.foldl_append]

/-- C22: `Use(h, m1, ..., mn)` is `m1(m2(...(mn(h))...))`: with no middleware it is `h`,
and the first listed middleware wraps everything after it. So `AllRouteMiddleware` gives
logging around the security headers around the rate limiter around `h`, and
`AdminMiddleware` gives session refresh around authentication around the role gate around
the verification gate around `h`. -/
theorem Use_nests {σ : Type} (h : Handler σ) (mw : List (middleware σ)) (env : Env)
    (store : AuthStore σ) :
    Use h mw = mw.foldr (fun m inner => m inner) h ∧
    Use h [] = h ∧
    (∀ (m : middleware σ) (ms : List (middleware σ)), Use h (m :: ms) = m (Use h ms)) ∧
    Use h (AllRouteMiddleware env) =
      loggingMiddleware env
        (securityHeadersMiddleware (rateLimitMiddlewarePerIP env second 10 h)) ∧
    Use h (AdminMiddleware env store) =
      sessionRefreshMiddleware env store
        (authMiddleware store (onlyAdminMiddleware (mustBeVerifyMiddleware h))) := by
  refine ⟨?_, rfl, fun m ms => Use_cons h m ms, rfl, rfl⟩
  induction mw with
  | nil => rfl
  | cons m ms ih => rw [Use_cons, ih, List.foldr_cons]

/-- The order is visible in what a request leaves behind: through `AllRouteMiddleware` the
security headers are written before the final handler writes, and the log record, made
after the handler returned, reports its status; through `AdminMiddleware` a request without
cookie stops at authentication, before the role gate could answer 403. -/
theorem Use_order_observed :
    (Use markHandler (AllRouteMiddleware sampleEnv) dashboardRequest
      (freshExchange sampleDB)).w =
      [WriterOp.SetHeader "X-Content-Type-Options" "nosniff",
       WriterOp.SetHeader "Content-Security-Policy" "script-src 'self'; style-src 'self';",
       WriterOp.SetHeader "X-Frame-Options" "DENY",
       WriterOp.SetHeader "X-XSS-Protection" "1; mode=block",
       WriterOp.SetHeader "Referrer-Policy" "strict-origin-when-cross-origin",
       WriterOp.SetHeader "Cache-Control" "no-store, max-age=0",
       WriterOp.SetHeader "Pragma" "no-cache",
       WriterOp.Write "final handler"] ∧
    (Use markHandler (AllRouteMiddleware sampleEnv) dashboardRequest
      (freshExchange sampleDB)).logs =
      [{ level := "INFO", msg := "http request handled", err := none,
         attrs := [("method", "GET"), ("path", "/dashboard"), ("status", "200"),
           ("duration", "7")] }] ∧
    (Use markHandler (AdminMiddleware sampleEnv (NewPostgresStore noFault))
      (loginRequest "admin@admin" "password1") (freshExchange adminDB)).w =
      [WriterOp.Redirect "/login" 303] := by
  decide

/-- In `PostAdminLogin`, once the login succeeded and `CreateSession` failed, the handler
writes 500, still calls `http.SetCookie` with the empty token, and still runs `CreateOTP`
on the world `CreateSession` left. -/
theorem PostAdminLogin_failed_session {σ : Type} (env : Env) (store : AuthStore σ)
    (mail : String) (r : Request) (ex : Exchange σ) (u : User) (w1 : World σ) (e : Err)
    (hlogin : LoginUser env.lib store
      (credentials (tolowerall env (r.FormValue "email")) (r.FormValue "password")) ex.world =
      (Except.ok u, w1))
    (hsession : (CreateSession store.sessions env.token env.clock.session u.ID r w1).1 =
      Except.error e) :
    (PostAdminLogin env store mail r ex).w.take (ex.w.length + 2) =
      ex.w ++ [WriterOp.WriteHeader 500, WriterOp.SetCookie (loginCookie "")] ∧
    (PostAdminLogin env store mail r ex).world =
      (CreateOTP store.otps env.first env.rest env.send env.clock.otp u.ID mail
        (CreateSession store.sessions env.token env.clock.session u.ID r w1).2).1.2 ∧
    (PostAdminLogin env store mail r ex).mails =
      ex.mails ++ (CreateOTP store.otps env.first env.rest env.send env.clock.otp u.ID mail
        (CreateSession store.sessions env.token env.clock.session u.ID r w1).2).2 := by
  unfold PostAdminLogin
  simp only [hlogin, hsession, internal, Exchange.write]
  split <;> simp [Exchange.log, Exchange.write, List.take_append_eq_append_take]

/-- In `PostLogin`, once the login succeeded and `CreateSession` failed, the handler writes
500 and still calls `http.SetCookie` with the empty token. -/
theorem PostLogin_failed_session {σ : Type} (env : Env) (store : AuthStore σ)
    (r : Request) (ex : Exchange σ) (u : User) (w1 : World σ) (e : Err)
    (hlogin : LoginUser env.lib store
      (credentials (tolowerall env (r.FormValue "email")) (r.FormValue "password")) ex.world =
      (Except.ok u, w1))
    (hsession : (CreateSession store.sessions env.token env.clock.session u.ID r w1).1 =
      Except.error e) :
    PostLogin env store r ex =
      { ex with
        world := (CreateSession store.sessions env.token env.clock.session u.ID r w1).2
        w := ex.w ++ [WriterOp.WriteHeader 500, WriterOp.SetCookie (loginCookie "")] } := by
  unfold PostLogin
  simp only [hlogin]
  rcases hcs : CreateSession store.sessions env.token env.clock.session u.ID r w1 with ⟨res, w2⟩
  rw [hcs] at hsession
  simp only at hsession
  subst hsession
  simp [internal, Exchange.write]

/-- C23 (the code at the failing input): `adminUser` logs in with the right password while
the insert of the session fails. `PostLogin` answers 500 and then calls `http.SetCookie`
with an empty `session` value; `PostAdminLogin` does the same and goes on to `CreateOTP`:
the code is persisted, the email is handed to the mail client and a redirect to
`/admin/verify` is attempted. -/
theorem login_handlers_failed_session :
    (CreateSession (NewPostgresStore createSessionFails).sessions sampleEnv.token
      sampleEnv.clock.session "1" (loginRequest "admin@admin" "password1")
      { st := adminDB, log := [Call.GetUserByEmail "admin@admin"] }).1 =
      Except.error (Err.other "driver: bad connection") ∧
    (PostLogin sampleEnv (NewPostgresStore createSessionFails)
      (loginRequest "admin@admin" "password1") (freshExchange adminDB)).w =
      [WriterOp.WriteHeader 500, WriterOp.SetCookie (loginCookie "")] ∧
    PostAdminLogin sampleEnv (NewPostgresStore createSessionFails) "key"
        (loginRequest "admin@admin" "password1") (freshExchange adminDB) =
      { world :=
          { st := { adminDB with otps := [issuedOtp] },
            log := [Call.GetUserByEmail "admin@admin", Call.CreateSession attemptedSession,
              Call.CreateOtp issuedOtp] },
        w := [WriterOp.WriteHeader 500, WriterOp.SetCookie (loginCookie ""),
          WriterOp.Redirect "/admin/verify" 303],
        logs := [], mails := [issuedMail], visitors := [], panicked := false } := by
  decide

end Scaffolding
